import Mathlib

/-! camgrab: the controller logic of the main window

A shallow embedding of `src/mainwindow.cpp`.  The window is a record of the
members the slots read and write; a slot is a function on that record.  A
slot that dereferences a camera pointer returns `Except Fault MainWindow`,
since the pointer can be null.

Library behaviour (Qt widgets, `QCamera`, `QDateTime::toString`, `QDir`) is
written out from the Qt 5 documentation and sources.  Classes of the
repository that are not part of `src/` (`CameraManager`, `CameraViewFinder`,
`AbstractFilter`, the `.ui` form) are modelled from the specification and
marked as such.
-/

namespace CamGrab

/-! ## Machine integers -/

/-- An integral C++ type, given by its width and signedness.  The type of the
member `framesInCurrentSecond` is declared in `mainwindow.h`, which is not
part of `src/`; every function touching the counter takes it as a parameter. -/
structure IntType where
  bits : Nat
  isSigned : Bool
deriving DecidableEq, Repr

/-- Largest value of the type. -/
def IntType.maxValue (ty : IntType) : Int :=
  if ty.isSigned then 2 ^ (ty.bits - 1) - 1 else 2 ^ ty.bits - 1

/-- Reduction of a mathematical integer into the range of the type: modulo
`2 ^ bits` for an unsigned type, two's complement for a signed one (signed
overflow is undefined in C++; this is what the usual targets compute). -/
def IntType.wrap (ty : IntType) (x : Int) : Int :=
  if ty.isSigned then (x + 2 ^ (ty.bits - 1)) % 2 ^ ty.bits - 2 ^ (ty.bits - 1)
  else x % 2 ^ ty.bits

/-! ## Cameras -/

/-- The part of `QCameraInfo` the window uses.  A default-constructed (null)
info has empty strings. -/
structure QCameraInfo where
  deviceName : String
  description : String
deriving DecidableEq, Repr

/-- The null `QCameraInfo`. -/
def QCameraInfo.null : QCameraInfo := ⟨"", ""⟩

/-- The enum `QCamera::State`. -/
inductive QCameraState
  | UnloadedState
  | LoadedState
  | ActiveState
deriving DecidableEq, Repr

/-- A `QCamera` object: the device it drives, its (requested) state and
whether the video surface of the window's view finder is its viewfinder. -/
structure QCamera where
  info : QCameraInfo
  state : QCameraState
  viewfinderSet : Bool
deriving DecidableEq, Repr

/-- The method `QCamera::load()`: an unloaded camera becomes loaded. -/
def QCamera.load (c : QCamera) : QCamera :=
  if c.state = QCameraState.UnloadedState then { c with state := QCameraState.LoadedState } else c

/-- The method `QCamera::start()`: the camera becomes active. -/
def QCamera.start (c : QCamera) : QCamera := { c with state := QCameraState.ActiveState }

/-- The method `QCamera::stop()`: the state is set to loaded. -/
def QCamera.stop (c : QCamera) : QCamera := { c with state := QCameraState.LoadedState }

/-- The method `QCamera::setViewfinder(surface)` for the window's video surface. -/
def QCamera.setViewfinder (c : QCamera) : QCamera := { c with viewfinderSet := true }

/-- What goes wrong when a slot runs off the defined behaviour of C++. -/
inductive Fault
  | nullPointer
deriving DecidableEq, Repr

/-- State of the `CameraManager`.  `cameras` holds every `QCamera` object
created so far, in creation order; a `QSharedPointer<QCamera>` is an index
into it, `none` being the null pointer. -/
structure CameraManager where
  cameras : List QCamera
  selectedCamera : Option Nat
deriving DecidableEq, Repr

/-- The accessor `CameraManager::getSelectedCamera()`. -/
def CameraManager.getSelectedCamera (m : CameraManager) : Option Nat := m.selectedCamera

/-- The object behind a camera pointer, if the pointer is not null. -/
def CameraManager.camera (m : CameraManager) (p : Option Nat) : Option QCamera :=
  match p with
  | none => none
  | some i => m.cameras[i]?

/-- The accessor `CameraManager::getSelectedCameraInfo()`: the info of the
selected camera, the null info when there is none. -/
def CameraManager.getSelectedCameraInfo (m : CameraManager) : QCameraInfo :=
  match m.camera m.selectedCamera with
  | none => QCameraInfo.null
  | some c => c.info

/-- A member call `camera->f()` through a raw pointer obtained with
`.data()`: a fault on the null pointer. -/
def CameraManager.call (m : CameraManager) (p : Option Nat) (f : QCamera → QCamera) :
    Except Fault CameraManager :=
  match p with
  | none => Except.error Fault.nullPointer
  | some i =>
    match m.cameras[i]? with
    | none => Except.error Fault.nullPointer
    | some c => Except.ok { m with cameras := m.cameras.set i (f c) }

/-- Modelled from the spec: `CameraManager::changeSelectedCamera` (class
`CameraManager` is not in `src/`).  Spec 4.1 `select`: "if a device is
currently running, it is stopped first, then the new device handle is
opened.  Selecting the already-selected device is a no-op.  On success,
emits a selection changed notification carrying the new handle".  The result
is the new manager state and the pointer carried by the emitted
`changedSelectedCamera` signal, `none` when nothing is emitted. -/
def CameraManager.changeSelectedCamera (m : CameraManager) (info : QCameraInfo) :
    CameraManager × Option Nat :=
  match m.selectedCamera, m.camera m.selectedCamera with
  | some i, some c =>
    if c.info = info then (m, none)
    else
      let stopped := if c.state = QCameraState.ActiveState then m.cameras.set i c.stop else m.cameras
      ({ cameras := stopped ++ [⟨info, QCameraState.UnloadedState, false⟩],
         selectedCamera := some stopped.length }, some stopped.length)
  | _, _ =>
    ({ cameras := m.cameras ++ [⟨info, QCameraState.UnloadedState, false⟩],
       selectedCamera := some m.cameras.length }, some m.cameras.length)

/-! ## Filters and their controls -/

/-- An `AbstractFilter`: its name and whether it is enabled. -/
structure AbstractFilter where
  name : String
  enabled : Bool
deriving DecidableEq, Repr

/-- A `QRadioButton` of the filters frame.  `filter` is the receiver of the
connection made in `registerFilter`: the position of the filter in the
registry of the view finder. -/
structure QRadioButton where
  text : String
  checked : Bool
  autoExclusive : Bool
  filter : Nat
deriving DecidableEq, Repr

/-- A line of the console: `Console::log` or `Console::error`. -/
inductive ConsoleLine
  | log (text : String)
  | error (text : String)
deriving DecidableEq, Repr

/-! ## Date and time formatting -/

/-- A `QDateTime` in local time, by its fields. -/
structure QDateTime where
  year : Int
  month : Nat
  day : Nat
  dayOfWeek : Nat
  hour : Nat
  minute : Nat
  second : Nat
  msec : Nat
  timeZoneAbbreviation : String
deriving DecidableEq, Repr

/-- The texts a `QLocale` supplies to date formatting; the flag asks for the
long form of a name. -/
structure QLocale where
  monthName : Nat → Bool → String
  dayName : Nat → Bool → String
  amText : String
  pmText : String

/-- The single quote, the escape character of format strings. -/
def quoteChar : Char := Char.ofNat 39

/-- Decimal digits of `n`, padded with zeros on the left to `width` characters. -/
def zeroPadded (n width : Nat) : List Char :=
  List.replicate (width - (Nat.toDigits 10 n).length) (Char.ofNat 48) ++ Nat.toDigits 10 n

/-- `QLocaleData::longLongToString` with the flag `ZeroPadded`: the sign counts
towards the width. -/
def longLongToString (v : Int) (width : Nat) : List Char :=
  if v < 0 then Char.ofNat 45 :: zeroPadded v.natAbs (width - 1) else zeroPadded v.natAbs width

/-- `qt_repeatCount(s, i)` on the text from position `i`: how often its first
character is repeated from there. -/
def qt_repeatCount : List Char → Nat
  | [] => 0
  | c :: rest => 1 + (rest.takeWhile (fun d => d == c)).length

/-- Inside of a quoted section, after its opening quote: the literal text and
what follows the closing quote.  A doubled quote stands for a quote. -/
def readQuoted : List Char → List Char × List Char
  | [] => ([], [])
  | c :: rest =>
    if c == quoteChar then
      match rest with
      | d :: rest2 =>
        if d == quoteChar then ((quoteChar :: (readQuoted rest2).1), (readQuoted rest2).2)
        else ([], rest)
      | [] => ([], rest)
    else ((c :: (readQuoted rest).1), (readQuoted rest).2)

/-- `qt_readEscapedFormatString(format, &i)` on the text from position `i`,
which holds a quote: two quotes in a row outside of a quoted section give one
quote; otherwise the quoted section is read. -/
def qt_readEscapedFormatString : List Char → List Char × List Char
  | [] => ([], [])
  | _ :: rest =>
    match rest with
    | [] => ([], [])
    | d :: rest2 => if d == quoteChar then ([quoteChar], rest2) else readQuoted rest

/-- `timeFormatContainsAP(format)`: an `a` or `A` outside of quotes. -/
def timeFormatContainsAP : Nat → List Char → Bool
  | 0, _ => false
  | _, [] => false
  | fuel + 1, c :: rest =>
    if c == quoteChar then timeFormatContainsAP fuel (qt_readEscapedFormatString (c :: rest)).2
    else if c.toLower == Char.ofNat 97 then true
    else timeFormatContainsAP fuel rest

/-- Up to two trailing zeros chopped off, as for the expression `z`. -/
def chopZeros (ds : List Char) : List Char :=
  let ds := if ds.getLast? == some (Char.ofNat 48) then ds.dropLast else ds
  if ds.getLast? == some (Char.ofNat 48) then ds.dropLast else ds

/-- One expression of a format string (`QLocale::toString` for a date-time):
`c` is the character at the current position, `count` its repeat count and
`next` the character after `c`.  The result is the text appended and the
number of characters consumed. -/
def formatField (loc : QLocale) (t : QDateTime) (ampm : Bool) (c : Char) (count : Nat)
    (next : Option Char) : List Char × Nat :=
  if c == Char.ofNat 121 then
    if count ≥ 4 then (longLongToString t.year (if t.year < 0 then 5 else 4), 4)
    else if count ≥ 2 then (longLongToString (Int.tmod t.year 100) 2, 2)
    else ([c], 1)
  else if c == Char.ofNat 77 then
    match min count 4 with
    | 1 => (Nat.toDigits 10 t.month, 1)
    | 2 => (zeroPadded t.month 2, 2)
    | 3 => ((loc.monthName t.month false).data, 3)
    | _ => ((loc.monthName t.month true).data, 4)
  else if c == Char.ofNat 100 then
    match min count 4 with
    | 1 => (Nat.toDigits 10 t.day, 1)
    | 2 => (zeroPadded t.day 2, 2)
    | 3 => ((loc.dayName t.dayOfWeek false).data, 3)
    | _ => ((loc.dayName t.dayOfWeek true).data, 4)
  else if c == Char.ofNat 104 then
    let hour := if ampm then (if t.hour > 12 then t.hour - 12 else if t.hour = 0 then 12 else t.hour)
      else t.hour
    if min count 2 = 1 then (Nat.toDigits 10 hour, 1) else (zeroPadded hour 2, 2)
  else if c == Char.ofNat 72 then
    if min count 2 = 1 then (Nat.toDigits 10 t.hour, 1) else (zeroPadded t.hour 2, 2)
  else if c == Char.ofNat 109 then
    if min count 2 = 1 then (Nat.toDigits 10 t.minute, 1) else (zeroPadded t.minute 2, 2)
  else if c == Char.ofNat 115 then
    if min count 2 = 1 then (Nat.toDigits 10 t.second, 1) else (zeroPadded t.second 2, 2)
  else if c == Char.ofNat 97 then
    ((if t.hour < 12 then loc.amText.toLower else loc.pmText.toLower).data,
      if next == some (Char.ofNat 112) then 2 else 1)
  else if c == Char.ofNat 65 then
    ((if t.hour < 12 then loc.amText.toUpper else loc.pmText.toUpper).data,
      if next == some (Char.ofNat 80) then 2 else 1)
  else if c == Char.ofNat 122 then
    if count ≥ 3 then (zeroPadded t.msec 3, 3) else (chopZeros (zeroPadded t.msec 3), 1)
  else if c == Char.ofNat 116 then (t.timeZoneAbbreviation.data, 1)
  else (List.replicate count c, count)

/-- The loop of `QLocale::toString(dateTime, format)` over the format text
that is left; `fuel` bounds the number of rounds, each of which consumes at
least one character. -/
def dateTimeToString (loc : QLocale) (t : QDateTime) (ampm : Bool) :
    Nat → List Char → List Char
  | 0, _ => []
  | _, [] => []
  | fuel + 1, c :: rest =>
    if c == quoteChar then
      (qt_readEscapedFormatString (c :: rest)).1
        ++ dateTimeToString loc t ampm fuel (qt_readEscapedFormatString (c :: rest)).2
    else
      (formatField loc t ampm c (qt_repeatCount (c :: rest)) rest.head?).1
        ++ dateTimeToString loc t ampm fuel
            ((c :: rest).drop (formatField loc t ampm c (qt_repeatCount (c :: rest)) rest.head?).2)

/-- `QDateTime::toString(format)`. -/
def QDateTime.toString (t : QDateTime) (loc : QLocale) (format : String) : String :=
  String.mk (dateTimeToString loc t (timeFormatContainsAP format.length format.data)
    format.length format.data)

/-! ## Directories and images -/

/-- `QDir::toNativeSeparators(path)` on a platform whose separator is the slash. -/
def toNativeSeparators (path : String) : String := path

/-- The path a `QDir(path)` holds: the current directory for the empty path,
and one trailing slash is dropped except from the root. -/
def qDirPath (path : String) : List Char :=
  let p := if path.data.isEmpty then [Char.ofNat 46] else path.data
  if p.getLast? == some (Char.ofNat 47) && p.length > 1 then p.dropLast else p

/-- `QDir(path).filePath(fileName)`: an absolute file name is returned as it
is; otherwise it is appended to the directory, with a slash in between where
none is there. -/
def filePath (path : String) (fileName : String) : String :=
  if fileName.data.head? == some (Char.ofNat 47) then fileName
  else if fileName.data.isEmpty then String.mk (qDirPath path)
  else if !(qDirPath path).isEmpty && (qDirPath path).getLast? != some (Char.ofNat 47) then
    String.mk (qDirPath path ++ [Char.ofNat 47] ++ fileName.data)
  else String.mk (qDirPath path ++ fileName.data)

/-- A `QImage`, as far as saving is concerned: null or not. -/
structure QImage where
  isNull : Bool
deriving DecidableEq, Repr

/-- `QImage::save(fileName, format, quality)`: false for a null image, which is
not written; otherwise whether encoding and writing succeed, `ioOk`. -/
def QImage.save (image : QImage) (ioOk : Bool) : Bool :=
  if image.isNull then false else ioOk

/-! ## The window -/

/-- The members of `MainWindow` and of the widgets it owns that the slots of
`mainwindow.cpp` read or write. -/
structure MainWindow where
  /-- the member `cameraManager` -/
  cameraManager : CameraManager
  /-- items of `cameraComboBox`: text and user data -/
  cameraComboBox : List (String × QCameraInfo)
  /-- visibility of `cameraComboBoxAction` -/
  cameraComboBoxActionVisible : Bool
  /-- enabledness of `cameraComboBoxAction` -/
  cameraComboBoxActionEnabled : Bool
  /-- visibility of `ui->consoleDockWidget` -/
  consoleDockWidgetVisible : Bool
  /-- check state of `ui->actionToggleCamera` -/
  actionToggleCameraChecked : Bool
  /-- whether `fpsTimer` is running -/
  fpsTimerActive : Bool
  /-- the message shown by `ui->statusBar`, empty when cleared -/
  statusBar : String
  /-- the member `framesInCurrentSecond` -/
  framesInCurrentSecond : Int
  /-- output of `Console` -/
  console : List ConsoleLine
  /-- the member `outputDirectoryPath` -/
  outputDirectoryPath : String
  /-- the rendered image of `ui->cameraViewFinder` -/
  renderedImage : QImage
  /-- file paths handed to `QImage::save` so far -/
  saveCalls : List String
  /-- filter registry of `ui->cameraViewFinder` -/
  filters : List AbstractFilter
  /-- radio buttons among the children of `ui->filtersFrame` -/
  filterRadioButtons : List QRadioButton
  /-- enabledness of `ui->filtersFrame` -/
  filtersFrameEnabled : Bool
deriving DecidableEq, Repr

namespace MainWindow

/-- The call `Console::log(text)`. -/
def consoleLog (text : String) (w : MainWindow) : MainWindow :=
  { w with console := w.console ++ [ConsoleLine.log text] }

/-- The call `Console::error(text)`. -/
def consoleError (text : String) (w : MainWindow) : MainWindow :=
  { w with console := w.console ++ [ConsoleLine.error text] }

/-- `MainWindow::toggleCamera` (lines 81-97). -/
def toggleCamera (enable : Bool) (w : MainWindow) : Except Fault MainWindow :=
  let camera := w.cameraManager.getSelectedCamera
  let cameraInfo := w.cameraManager.getSelectedCameraInfo
  if enable then
    let w := consoleLog ("Starting camera " ++ cameraInfo.description) w
    match w.cameraManager.call camera QCamera.load with
    | Except.error e => Except.error e
    | Except.ok m =>
      match m.call camera QCamera.start with
      | Except.error e => Except.error e
      | Except.ok m => Except.ok { w with cameraManager := m, fpsTimerActive := true }
  else
    let w := consoleLog ("Stopping camera " ++ cameraInfo.description) w
    match w.cameraManager.call camera QCamera.stop with
    | Except.error e => Except.error e
    | Except.ok m => Except.ok { w with cameraManager := m, fpsTimerActive := false, statusBar := "" }

/-- Modelled from the spec: the connection of `ui->actionToggleCamera` to the
slot `toggleCamera(bool)` is made in the form `mainwindow.ui`, which is not in
`src/`.  Spec 6 lists `startCamera()`/`stopCamera()` as the intents of the
start/stop control: the action's `toggled(bool)` signal calls the slot.
`QAction::setChecked` emits `toggled` only when the check state changes. -/
def actionToggleCameraSetChecked (checked : Bool) (w : MainWindow) : Except Fault MainWindow :=
  if w.actionToggleCameraChecked = checked then Except.ok w
  else toggleCamera checked { w with actionToggleCameraChecked := checked }

/-- `MainWindow::onCameraChanged` (lines 73-79). -/
def onCameraChanged (cameraPtr : Option Nat) (w : MainWindow) : Except Fault MainWindow :=
  match actionToggleCameraSetChecked false w with
  | Except.error e => Except.error e
  | Except.ok w =>
    match w.cameraManager.call cameraPtr QCamera.setViewfinder with
    | Except.error e => Except.error e
    | Except.ok m => Except.ok { w with cameraManager := m }

/-- The slot `cameraManager->changeSelectedCamera(info)` together with the
delivery of its `changedSelectedCamera` signal to `onCameraChanged`
(connection of line 29). -/
def changeSelectedCamera (info : QCameraInfo) (w : MainWindow) : Except Fault MainWindow :=
  match w.cameraManager.changeSelectedCamera info with
  | (m, none) => Except.ok { w with cameraManager := m }
  | (m, some cameraPtr) => onCameraChanged (some cameraPtr) { w with cameraManager := m }

/-- `MainWindow::detectCameras` (lines 48-71).  `cameras` is the result of
`cameraManager->listCameras()`, the enumeration of the platform. -/
def detectCameras (cameras : List QCameraInfo) (w : MainWindow) : Except Fault MainWindow :=
  match cameras with
  | [] =>
    let w := consoleError "No available cameras detected!" w
    Except.ok { w with cameraComboBoxActionVisible := false, consoleDockWidgetVisible := true }
  | first :: _ =>
    let w := consoleLog ("Detected " ++ toString cameras.length ++ " cameras:") w
    let w := cameras.foldl
      (fun w cameraInfo =>
        { consoleLog cameraInfo.description w with
          cameraComboBox := w.cameraComboBox ++ [(cameraInfo.description, cameraInfo)] }) w
    match changeSelectedCamera first w with
    | Except.error e => Except.error e
    | Except.ok w =>
      if cameras.length = 1 then Except.ok { w with cameraComboBoxActionEnabled := false }
      else Except.ok w

/-- `MainWindow::processFrame` (lines 99-102): `++framesInCurrentSecond`. -/
def processFrame (ty : IntType) (w : MainWindow) : MainWindow :=
  { w with framesInCurrentSecond := ty.wrap (w.framesInCurrentSecond + 1) }

/-- The slot `processFrame` called `n` times in a row. -/
def processFrames (ty : IntType) : Nat → MainWindow → MainWindow
  | 0, w => w
  | n + 1, w => processFrames ty n (processFrame ty w)

/-- `MainWindow::updateFps` (lines 104-108). -/
def updateFps (w : MainWindow) : MainWindow :=
  { w with statusBar := toString w.framesInCurrentSecond ++ " FPS", framesInCurrentSecond := 0 }

/-- The file name `grabImage` generates for the local time `now` (line 151). -/
def grabImageFileName (loc : QLocale) (now : QDateTime) : String :=
  now.toString loc "''yyyyMMdd_HHmmsszzz'.jpg'"

/-- `MainWindow::grabImage` (lines 147-164).  `now` is the value of
`QDateTime::currentDateTime()` and `ioOk` tells whether encoding and writing
the file succeed. -/
def grabImage (loc : QLocale) (now : QDateTime) (ioOk : Bool) (w : MainWindow) :
    Bool × MainWindow :=
  let renderedImage := w.renderedImage
  let fileName := grabImageFileName loc now
  let filePath := filePath (toNativeSeparators w.outputDirectoryPath) fileName
  let imageSaved := renderedImage.save ioOk
  let w := { w with saveCalls := w.saveCalls ++ [filePath] }
  if imageSaved then (imageSaved, consoleLog ("Saved image to " ++ filePath) w)
  else (imageSaved, consoleLog ("Cold not save image to " ++ filePath) w)

/-! ### Filters -/

/-- Modelled from the spec: `AbstractFilter::setEnabled(bool)`, the slot the
radio button of a filter is connected to (class `AbstractFilter` is not in
`src/`).  Spec 4.2 `setEnabled`: "if enabled is true, this filter becomes the
sole active filter: the registry walks all other filters and forces their
enabled to false first, then sets this one true.  If enabled is false, only
this filter is turned off".  The slot of the source belongs to one filter
object and receives only the flag; `registryExclusive` says whether it clears
the other filters as the registry of the spec does, or only stores the flag. -/
def setFilterEnabled (registryExclusive : Bool) (k : Nat) (enabled : Bool)
    (fs : List AbstractFilter) : List AbstractFilter :=
  match fs[k]? with
  | none => fs
  | some f =>
    if enabled && registryExclusive then
      (fs.map (fun g => { g with enabled := false })).set k { f with enabled := true }
    else fs.set k { f with enabled := enabled }

/-- Modelled from the spec: `CameraViewFinder::disableFilters()` (class
`CameraViewFinder` is not in `src/`).  Spec 4.2 `disableAll`: "forces every
filter's enabled to false". -/
def disableFilters (fs : List AbstractFilter) : List AbstractFilter :=
  fs.map (fun g => { g with enabled := false })

/-- `MainWindow::registerFilter` (lines 172-181).  The view finder appends the
filter to its registry (spec 4.2 `register`); the new `QRadioButton` is
unchecked and auto-exclusive, the defaults of the class, and its `toggled`
signal is connected to the filter just registered. -/
def registerFilter (filter : AbstractFilter) (w : MainWindow) : MainWindow :=
  { w with
    filters := w.filters ++ [filter],
    filterRadioButtons := w.filterRadioButtons ++ [⟨filter.name, false, true, w.filters.length⟩] }

/-- `MainWindow::registerFilters` (lines 166-170); the arguments are the
`FaceDetectFilter` and the `GrayscaleFilter` as constructed. -/
def registerFilters (faceDetect grayscale : AbstractFilter) (w : MainWindow) : MainWindow :=
  registerFilter grayscale (registerFilter faceDetect w)

/-- Check state of the button at position `j`, false when there is none. -/
def isChecked (bs : List QRadioButton) (j : Nat) : Bool :=
  match bs[j]? with
  | some b => b.checked
  | none => false

/-- Auto-exclusivity of the button at position `j`, false when there is none. -/
def isAutoExclusive (bs : List QRadioButton) (j : Nat) : Bool :=
  match bs[j]? with
  | some b => b.autoExclusive
  | none => false

/-- `QAbstractButtonPrivate::queryButtonList` for button `q` of a parent
without button group: all sibling buttons, and only the auto-exclusive ones
when `q` is auto-exclusive. -/
def queryButtonList (bs : List QRadioButton) (q : Nat) : List Nat :=
  (List.range bs.length).filter (fun j => !isAutoExclusive bs q || isAutoExclusive bs j)

/-- `QAbstractButtonPrivate::queryCheckedButton` for button `q`: nothing when
`q` is not auto-exclusive or alone; otherwise the first checked button other
than `q`, or `q` itself when it is the checked one. -/
def queryCheckedButton (bs : List QRadioButton) (q : Nat) : Option Nat :=
  let buttonList := queryButtonList bs q
  if !isAutoExclusive bs q || buttonList.length == 1 then none
  else
    match buttonList.find? (fun j => isChecked bs j && j != q) with
    | some j => some j
    | none => if isChecked bs q then some q else none

/-- Assignment to the `checked` member of button `q`. -/
def setCheckedRaw (q : Nat) (checked : Bool) (bs : List QRadioButton) : List QRadioButton :=
  match bs[q]? with
  | none => bs
  | some b => bs.set q { b with checked := checked }

/-- The call `setAutoExclusive(v)` on button `q`. -/
def setAutoExclusive (q : Nat) (v : Bool) (w : MainWindow) : MainWindow :=
  match w.filterRadioButtons[q]? with
  | none => w
  | some b => { w with filterRadioButtons := w.filterRadioButtons.set q { b with autoExclusive := v } }

/-- Emission of `toggled(checked)` by button `q`: the connected filter's
`setEnabled(checked)` runs (connection of line 180). -/
def emitToggled (registryExclusive : Bool) (q : Nat) (checked : Bool) (w : MainWindow) :
    MainWindow :=
  match w.filterRadioButtons[q]? with
  | none => w
  | some b => { w with filters := setFilterEnabled registryExclusive b.filter checked w.filters }

/-- `QAbstractButton::setChecked(false)` on button `q`: nothing happens when
the button is unchecked already, or when it is the checked button of its
auto-exclusive group; otherwise it is unchecked and emits `toggled(false)`. -/
def radioUncheck (registryExclusive : Bool) (q : Nat) (w : MainWindow) : MainWindow :=
  if !isChecked w.filterRadioButtons q then w
  else if queryCheckedButton w.filterRadioButtons q == some q
      && isAutoExclusive w.filterRadioButtons q then w
  else
    emitToggled registryExclusive q false
      { w with filterRadioButtons := setCheckedRaw q false w.filterRadioButtons }

/-- `QAbstractButton::setChecked(true)` on button `q`: nothing happens when
the button is checked already; otherwise it is checked, `notifyChecked`
unchecks the button `queryCheckedButton` finds when `q` is auto-exclusive, and
then `toggled(true)` is emitted. -/
def radioCheck (registryExclusive : Bool) (q : Nat) (w : MainWindow) : MainWindow :=
  if isChecked w.filterRadioButtons q then w
  else
    let w := { w with filterRadioButtons := setCheckedRaw q true w.filterRadioButtons }
    let w :=
      if isAutoExclusive w.filterRadioButtons q then
        match queryCheckedButton w.filterRadioButtons q with
        | some b => radioUncheck registryExclusive b w
        | none => w
      else w
    emitToggled registryExclusive q true w

/-- `QAbstractButton::setChecked(checked)` on button `q`. -/
def radioSetChecked (registryExclusive : Bool) (q : Nat) (checked : Bool) (w : MainWindow) :
    MainWindow :=
  if checked then radioCheck registryExclusive q w else radioUncheck registryExclusive q w

/-- Body of the `foreach` loop of `enableFilters` for the child at position `i`. -/
def resetRadioButton (registryExclusive : Bool) (w : MainWindow) (i : Nat) : MainWindow :=
  setAutoExclusive i true (radioSetChecked registryExclusive i false (setAutoExclusive i false w))

/-- `MainWindow::enableFilters` (lines 183-200). -/
def enableFilters (registryExclusive : Bool) (enabled : Bool) (w : MainWindow) : MainWindow :=
  let w :=
    if !enabled then
      let w := { w with filters := disableFilters w.filters }
      (List.range w.filterRadioButtons.length).foldl (resetRadioButton registryExclusive) w
    else w
  { w with filtersFrameEnabled := enabled }

/-- What can happen to the filter controls: a radio button is checked or
unchecked, or the filters as a whole are switched on or off. -/
inductive FilterEvent
  | toggle (button : Nat) (checked : Bool)
  | enableFilters (enabled : Bool)
deriving DecidableEq, Repr

/-- One event of the filter controls. -/
def filterStep (registryExclusive : Bool) (w : MainWindow) (e : FilterEvent) : MainWindow :=
  match e with
  | FilterEvent.toggle q checked => radioSetChecked registryExclusive q checked w
  | FilterEvent.enableFilters enabled => enableFilters registryExclusive enabled w

/-- Number of enabled filters of the registry. -/
def enabledCount (w : MainWindow) : Nat := w.filters.countP (fun f => f.enabled)

/-! ### Construction and events of the camera controller -/

/-- The window at line 37 of the constructor, before `detectCameras()`:
nothing selected, chooser empty, toggle unchecked, timer idle.  The
constructor does not assign `framesInCurrentSecond`; `frames` is the value
its declaration gives it.  `outputDirectory` is what `readSettings` loads. -/
def setup (frames : Int) (outputDirectory : String) : MainWindow :=
  { cameraManager := ⟨[], none⟩
    cameraComboBox := []
    cameraComboBoxActionVisible := true
    cameraComboBoxActionEnabled := true
    consoleDockWidgetVisible := false
    actionToggleCameraChecked := false
    fpsTimerActive := false
    statusBar := ""
    framesInCurrentSecond := frames
    console := []
    outputDirectoryPath := outputDirectory
    renderedImage := ⟨true⟩
    saveCalls := []
    filters := []
    filterRadioButtons := []
    filtersFrameEnabled := true }

/-- `MainWindow::MainWindow` (lines 10-41). -/
def construct (frames : Int) (outputDirectory : String) (cameras : List QCameraInfo)
    (faceDetect grayscale : AbstractFilter) : Except Fault MainWindow :=
  match detectCameras cameras (setup frames outputDirectory) with
  | Except.error e => Except.error e
  | Except.ok w => Except.ok (registerFilters faceDetect grayscale { w with filtersFrameEnabled := false })

/-- What reaches the camera controller from outside. -/
inductive Event
  /-- the user triggers the start/stop action -/
  | toggleClicked
  /-- the user activates an entry of the camera chooser -/
  | cameraActivated (info : QCameraInfo)
  /-- the video surface delivers a frame -/
  | frameReceived
  /-- a second of the rate timer has elapsed -/
  | timeout
deriving DecidableEq, Repr

/-- One event: the slot connected to it runs.  The timer fires only while it
is active. -/
def step (ty : IntType) (w : MainWindow) (e : Event) : Except Fault MainWindow :=
  match e with
  | Event.toggleClicked => actionToggleCameraSetChecked (!w.actionToggleCameraChecked) w
  | Event.cameraActivated info => changeSelectedCamera info w
  | Event.frameReceived => Except.ok (processFrame ty w)
  | Event.timeout => if w.fpsTimerActive then Except.ok (updateFps w) else Except.ok w

/-- A sequence of events, stopping at the first fault. -/
def run (ty : IntType) (w : MainWindow) : List Event → Except Fault MainWindow
  | [] => Except.ok w
  | e :: es =>
    match step ty w e with
    | Except.error f => Except.error f
    | Except.ok w => run ty w es

end MainWindow

/-- A locale with English names, for evaluation. -/
def englishLocale : QLocale :=
  { monthName := fun m long =>
      if long then (["January", "February", "March", "April", "May", "June", "July", "August",
        "September", "October", "November", "December"].getD (m - 1) "")
      else (["Jan", "Feb", "Mar", "Apr", "May", "Jun", "Jul", "Aug", "Sep", "Oct", "Nov",
        "Dec"].getD (m - 1) "")
    dayName := fun d long =>
      if long then (["Monday", "Tuesday", "Wednesday", "Thursday", "Friday", "Saturday",
        "Sunday"].getD (d - 1) "")
      else (["Mon", "Tue", "Wed", "Thu", "Fri", "Sat", "Sun"].getD (d - 1) "")
    amText := "AM"
    pmText := "PM" }

/-- The C++ type `unsigned int` of the usual targets. -/
def uint32 : IntType := ⟨32, false⟩

/-- The C++ type `int` of the usual targets. -/
def int32 : IntType := ⟨32, true⟩

/-- Consistency of the camera controller: the rate timer runs exactly while
the start/stop action is checked, the selected pointer is valid, and no camera
other than the selected one is active. -/
def MainWindow.Sane (w : MainWindow) : Prop :=
  w.fpsTimerActive = w.actionToggleCameraChecked
  ∧ (∀ i, w.cameraManager.selectedCamera = some i → i < w.cameraManager.cameras.length)
  ∧ (∀ j c, w.cameraManager.cameras[j]? = some c → c.state = QCameraState.ActiveState →
      w.cameraManager.selectedCamera = some j)

/-- The window with one running camera: constructed with one device, started,
three frames in, one timer tick. -/
def MainWindow.runningExample : MainWindow :=
  { cameraManager := ⟨[⟨⟨"video0", "Webcam"⟩, QCameraState.ActiveState, true⟩], some 0⟩
    cameraComboBox := [("Webcam", ⟨"video0", "Webcam"⟩)]
    cameraComboBoxActionVisible := true
    cameraComboBoxActionEnabled := false
    consoleDockWidgetVisible := false
    actionToggleCameraChecked := true
    fpsTimerActive := true
    statusBar := "3 FPS"
    framesInCurrentSecond := 0
    console := [ConsoleLine.log "Detected 1 cameras:", ConsoleLine.log "Webcam",
      ConsoleLine.log "Starting camera Webcam"]
    outputDirectoryPath := "/tmp"
    renderedImage := ⟨true⟩
    saveCalls := []
    filters := [⟨"Face detect", false⟩, ⟨"Grayscale", false⟩]
    filterRadioButtons := [⟨"Face detect", false, true, 0⟩, ⟨"Grayscale", false, true, 1⟩]
    filtersFrameEnabled := false }

/-- What C10 speaks of: the camera is started or stopped, a frame arrives, the
rate timer fires. -/
inductive RateEvent
  | startCamera
  | stopCamera
  | frame
  | timeout
deriving DecidableEq, Repr

/-- The slot that runs for a `RateEvent`: `toggleCamera(true)`,
`toggleCamera(false)`, `processFrame`, and `updateFps` when the timer is
active. -/
def MainWindow.rateStep (ty : IntType) (w : MainWindow) (e : RateEvent) :
    Except Fault MainWindow :=
  match e with
  | RateEvent.startCamera => MainWindow.toggleCamera true w
  | RateEvent.stopCamera => MainWindow.toggleCamera false w
  | RateEvent.frame => Except.ok (MainWindow.processFrame ty w)
  | RateEvent.timeout => if w.fpsTimerActive then Except.ok (MainWindow.updateFps w) else Except.ok w

/-- The status messages `updateFps` shows during a sequence of `RateEvent`s. -/
def MainWindow.rateReports (ty : IntType) (w : MainWindow) : List RateEvent → List String
  | [] => []
  | e :: es =>
    match MainWindow.rateStep ty w e with
    | Except.error _ => []
    | Except.ok w1 =>
      if e = RateEvent.timeout ∧ w.fpsTimerActive = true then
        w1.statusBar :: MainWindow.rateReports ty w1 es
      else MainWindow.rateReports ty w1 es

/-- The rates in the words of C10: a window begins when the timer is started
by `startCamera` or at the previous firing of the timer; a firing of the
running timer reports the number of frames received during the window that
just ended.  `running` tells whether the timer runs and `count` is the number
of frames of the current window. -/
def windowRates : Bool → Nat → List RateEvent → List Nat
  | _, _, [] => []
  | _, _, RateEvent.startCamera :: es => windowRates true 0 es
  | _, _, RateEvent.stopCamera :: es => windowRates false 0 es
  | running, count, RateEvent.frame :: es =>
    windowRates running (if running then count + 1 else count) es
  | running, count, RateEvent.timeout :: es =>
    if running then count :: windowRates true 0 es else windowRates running count es

/-- The window with one selected camera that is not running and a counter at 0. -/
def MainWindow.stoppedExample : MainWindow :=
  { MainWindow.runningExample with
    cameraManager := ⟨[⟨⟨"video0", "Webcam"⟩, QCameraState.LoadedState, true⟩], some 0⟩
    actionToggleCameraChecked := false
    fpsTimerActive := false
    statusBar := "" }

/-- A local time for evaluation: 7 June 2015, 08:09:10.011. -/
def sampleTime : QDateTime := ⟨2015, 6, 7, 7, 8, 9, 10, 11, "CEST"⟩

/-- The file name pattern of the spec, `yyyyMMdd_HHmmsszzz.jpg`, instantiated
at the local time `now`. -/
def snapshotPattern (loc : QLocale) (now : QDateTime) : String :=
  now.toString loc "yyyyMMdd_HHmmsszzz.jpg"

/-- A start, three frames and a stop within the first second, then a restart,
two frames and the first firing of the timer. -/
def restartTrace : List RateEvent :=
  [RateEvent.startCamera, RateEvent.frame, RateEvent.frame, RateEvent.frame,
    RateEvent.stopCamera, RateEvent.startCamera, RateEvent.frame, RateEvent.frame,
    RateEvent.timeout]

/-- The stopped example window once a frame has been rendered, with an output
directory. -/
def MainWindow.renderedExample : MainWindow :=
  { MainWindow.stoppedExample with
    renderedImage := ⟨false⟩
    outputDirectoryPath := "/home/user/shots" }

/-- The stopped example window before any frame has been rendered. -/
def MainWindow.noFrameExample : MainWindow :=
  { MainWindow.stoppedExample with
    renderedImage := ⟨true⟩
    outputDirectoryPath := "/home/user/shots" }

/-- Enabled flag of the filter at position `k`, false when there is none. -/
def isEnabled (fs : List AbstractFilter) (k : Nat) : Bool :=
  match fs[k]? with
  | some f => f.enabled
  | none => false

/-- Consistency of the filter controls: every radio button is auto-exclusive
and connected to the filter at its own position, at most one button is
checked, and a filter is enabled only while its button is checked. -/
def MainWindow.FilterInv (w : MainWindow) : Prop :=
  (∀ (j : Nat) (b : QRadioButton), w.filterRadioButtons[j]? = some b →
      b.autoExclusive = true ∧ b.filter = j)
  ∧ w.filterRadioButtons.length = w.filters.length
  ∧ (∀ i j, isChecked w.filterRadioButtons i = true → isChecked w.filterRadioButtons j = true →
      i = j)
  ∧ (∀ k, isEnabled w.filters k = true → isChecked w.filterRadioButtons k = true)

/-- The filter controls between `notifyChecked` and the emission of
`toggled(true)` by button `q`: `q` is the one checked button and no filter is
enabled. -/
def MainWindow.OnlyChecked (q : Nat) (w : MainWindow) : Prop :=
  (∀ (j : Nat) (b : QRadioButton), w.filterRadioButtons[j]? = some b →
      b.autoExclusive = true ∧ b.filter = j)
  ∧ w.filterRadioButtons.length = w.filters.length
  ∧ (∀ i, isChecked w.filterRadioButtons i = true → i = q)
  ∧ isChecked w.filterRadioButtons q = true
  ∧ (∀ k, isEnabled w.filters k = false)

/-- The filters are switched on, the first button is checked, then the second,
the second is unchecked again, and the filters are switched off. -/
def filterTrace : List MainWindow.FilterEvent :=
  [MainWindow.FilterEvent.enableFilters true, MainWindow.FilterEvent.toggle 0 true,
    MainWindow.FilterEvent.toggle 1 true, MainWindow.FilterEvent.toggle 1 false,
    MainWindow.FilterEvent.enableFilters false]

/-! ## Frame-rate counter -/

theorem IntType.wrap_add_wrap (ty : IntType) (a k : Int) :
    ty.wrap (ty.wrap a + k) = ty.wrap (a + k) := by
  unfold IntType.wrap
  split
  · have h : (a + 2 ^ (ty.bits - 1)) % 2 ^ ty.bits - 2 ^ (ty.bits - 1) + k + 2 ^ (ty.bits - 1)
        = (a + 2 ^ (ty.bits - 1)) % 2 ^ ty.bits + k := by ring
    rw [h, Int.emod_add_emod]
    have h2 : a + 2 ^ (ty.bits - 1) + k = a + k + 2 ^ (ty.bits - 1) := by ring
    rw [h2]
  · rw [Int.emod_add_emod]

theorem IntType.wrap_of_le (ty : IntType) (x : Int) (h0 : 0 < x) (h1 : x ≤ ty.maxValue) :
    ty.wrap x = x := by
  unfold IntType.wrap
  unfold IntType.maxValue at h1
  split
  · rename_i hs
    rw [if_pos hs] at h1
    rcases Nat.eq_zero_or_pos ty.bits with hb | hb
    · rw [hb] at h1
      simp at h1
      omega
    · have hp : (2 : Int) ^ ty.bits = 2 * 2 ^ (ty.bits - 1) := by
        have : ty.bits = (ty.bits - 1) + 1 := by omega
        conv_lhs => rw [this]
        rw [pow_succ]
        ring
      have hpos : (0 : Int) < 2 ^ (ty.bits - 1) := by positivity
      rw [Int.emod_eq_of_lt (by omega) (by omega)]
      ring
  · rename_i hs
    rw [if_neg hs] at h1
    exact Int.emod_eq_of_lt (by omega) (by omega)

theorem MainWindow.processFrames_frames (ty : IntType) (n : Nat) (w : MainWindow) :
    (MainWindow.processFrames ty (n + 1) w).framesInCurrentSecond
      = ty.wrap (w.framesInCurrentSecond + ((n : Int) + 1)) := by
  induction n generalizing w with
  | zero => simp [MainWindow.processFrames, MainWindow.processFrame]
  | succ n ih =>
    rw [MainWindow.processFrames, ih]
    simp only [MainWindow.processFrame]
    rw [IntType.wrap_add_wrap]
    congr 1
    push_cast
    ring

theorem MainWindow.processFrames_of_le (ty : IntType) (n : Nat) (w : MainWindow)
    (h0 : w.framesInCurrentSecond = 0) (hn : (n : Int) ≤ ty.maxValue) :
    (MainWindow.processFrames ty n w).framesInCurrentSecond = n := by
  cases n with
  | zero => simpa [MainWindow.processFrames] using h0
  | succ n =>
    rw [MainWindow.processFrames_frames, h0]
    push_cast at hn ⊢
    rw [IntType.wrap_of_le _ _ (by omega) (by omega)]
    ring

/-- C1, as amended: starting from a counter value of 0, `N` calls of
`processFrame` followed by one call of `updateFps` show the status text
"N FPS" and leave the counter at 0, for every `N` up to the largest value of
the counter's type; `updateFps` called again at once shows "0 FPS". -/
theorem MainWindow.updateFps_reports_frames (ty : IntType) (N : Nat) (w : MainWindow)
    (h0 : w.framesInCurrentSecond = 0) (hN : (N : Int) ≤ ty.maxValue) :
    (MainWindow.updateFps (MainWindow.processFrames ty N w)).statusBar = toString N ++ " FPS"
    ∧ (MainWindow.updateFps (MainWindow.processFrames ty N w)).framesInCurrentSecond = 0
    ∧ (MainWindow.updateFps (MainWindow.updateFps (MainWindow.processFrames ty N w))).statusBar
        = "0 FPS"
    ∧ (MainWindow.updateFps
        (MainWindow.updateFps (MainWindow.processFrames ty N w))).framesInCurrentSecond = 0 := by
  have h := MainWindow.processFrames_of_le ty N w h0 hN
  refine ⟨?_, rfl, rfl, rfl⟩
  simp only [MainWindow.updateFps, h]
  rfl

/-- Witness of C1: thirty frames on an `int` counter. -/
theorem MainWindow.updateFps_reports_frames_witness :
    (MainWindow.updateFps (MainWindow.processFrames int32 30 (MainWindow.setup 0 ""))).statusBar
      = "30 FPS"
    ∧ (MainWindow.updateFps
        (MainWindow.processFrames int32 30 (MainWindow.setup 0 ""))).framesInCurrentSecond = 0
    ∧ (MainWindow.updateFps (MainWindow.updateFps
        (MainWindow.processFrames int32 30 (MainWindow.setup 0 "")))).statusBar = "0 FPS"
    ∧ (MainWindow.updateFps (MainWindow.updateFps
        (MainWindow.processFrames int32 30 (MainWindow.setup 0 "")))).framesInCurrentSecond = 0 :=
  MainWindow.updateFps_reports_frames int32 30 (MainWindow.setup 0 "") rfl (by decide)

theorem IntType.wrap_two_pow (ty : IntType) : ty.wrap (0 + (2 : Int) ^ ty.bits) ≤ 0 := by
  unfold IntType.wrap
  split
  · rcases Nat.eq_zero_or_pos ty.bits with hb | hb
    · rw [hb]
      decide
    · have hp : (2 : Int) ^ ty.bits = 2 * 2 ^ (ty.bits - 1) := by
        have : ty.bits = (ty.bits - 1) + 1 := by omega
        conv_lhs => rw [this]
        rw [pow_succ]
        ring
      have hpos : (0 : Int) < 2 ^ (ty.bits - 1) := by positivity
      have h1 : (0 + (2 : Int) ^ ty.bits + 2 ^ (ty.bits - 1)) % 2 ^ ty.bits
          = 2 ^ (ty.bits - 1) := by
        rw [zero_add, Int.add_emod_self_left]
        exact Int.emod_eq_of_lt (by omega) (by omega)
      rw [h1]
      omega
  · rw [zero_add, Int.emod_self]

/-- C1 as stated fails beyond the range of the counter.  Whatever integral
type the counter has, `2 ^ bits` frames leave it at a value that is not the
number of frames.  After `2 ^ 32` frames an `unsigned int` counter is back at
0 and "0 FPS" is shown, and after `2 ^ 31` frames an `int` counter that wraps
shows a negative rate. -/
theorem MainWindow.updateFps_overflow :
    (¬ ∃ ty : IntType, ∀ N : Nat,
        (MainWindow.processFrames ty N (MainWindow.setup 0 "")).framesInCurrentSecond = N)
    ∧ (MainWindow.updateFps
        (MainWindow.processFrames uint32 4294967296 (MainWindow.setup 0 ""))).statusBar = "0 FPS"
    ∧ (MainWindow.updateFps
        (MainWindow.processFrames int32 2147483648 (MainWindow.setup 0 ""))).statusBar
        = "-2147483648 FPS"
    ∧ "0 FPS" ≠ toString 4294967296 ++ " FPS"
    ∧ "-2147483648 FPS" ≠ toString 2147483648 ++ " FPS" := by
  refine ⟨?_, ?_, ?_, by decide, by decide⟩
  · rintro ⟨ty, h⟩
    have hN := h (2 ^ ty.bits)
    have hpos : 0 < 2 ^ ty.bits := Nat.two_pow_pos ty.bits
    have hs : 2 ^ ty.bits = (2 ^ ty.bits - 1) + 1 := by omega
    rw [hs, MainWindow.processFrames_frames] at hN
    have hc : (((2 ^ ty.bits - 1 : Nat) : Int) + 1) = (2 : Int) ^ ty.bits := by
      have : (((2 ^ ty.bits - 1 : Nat) : Int) + 1) = ((2 ^ ty.bits - 1 + 1 : Nat) : Int) := by
        push_cast
        rfl
      rw [this, ← hs]
      push_cast
      rfl
    have hw := IntType.wrap_two_pow ty
    have hf : (MainWindow.setup 0 "").framesInCurrentSecond = 0 := rfl
    rw [hf, hc] at hN
    rw [hN] at hw
    have hp2 : (0 : Int) < ((2 ^ ty.bits - 1 + 1 : Nat) : Int) := by
      exact_mod_cast Nat.succ_pos _
    omega
  · have h := MainWindow.processFrames_frames uint32 4294967295 (MainWindow.setup 0 "")
    have e : (MainWindow.processFrames uint32 4294967296 (MainWindow.setup 0 "")).framesInCurrentSecond
        = 0 := by
      rw [show (4294967296 : Nat) = 4294967295 + 1 from rfl, h]
      decide
    simp only [MainWindow.updateFps, e]
    rfl
  · have h := MainWindow.processFrames_frames int32 2147483647 (MainWindow.setup 0 "")
    have e : (MainWindow.processFrames int32 2147483648 (MainWindow.setup 0 "")).framesInCurrentSecond
        = -2147483648 := by
      rw [show (2147483648 : Nat) = 2147483647 + 1 from rfl, h]
      decide
    simp only [MainWindow.updateFps, e]
    rfl

/-! ## Camera controller -/

theorem CameraManager.call_some (m : CameraManager) (i : Nat) (c : QCamera) (f : QCamera → QCamera)
    (h : m.cameras[i]? = some c) :
    m.call (some i) f = Except.ok ⟨m.cameras.set i (f c), m.selectedCamera⟩ := by
  simp [CameraManager.call, h]

theorem MainWindow.toggleCamera_null (enable : Bool) (w : MainWindow)
    (h : w.cameraManager.selectedCamera = none) :
    MainWindow.toggleCamera enable w = Except.error Fault.nullPointer := by
  cases enable <;>
    simp [MainWindow.toggleCamera, CameraManager.getSelectedCamera, CameraManager.call, h,
      MainWindow.consoleLog]

theorem MainWindow.toggleCamera_false_some (w : MainWindow) (i : Nat) (c : QCamera)
    (hs : w.cameraManager.selectedCamera = some i) (hc : w.cameraManager.cameras[i]? = some c) :
    MainWindow.toggleCamera false w = Except.ok
      { w with
        console := w.console ++ [ConsoleLine.log ("Stopping camera " ++ c.info.description)]
        cameraManager := ⟨w.cameraManager.cameras.set i c.stop, some i⟩
        fpsTimerActive := false
        statusBar := "" } := by
  simp [MainWindow.toggleCamera, CameraManager.getSelectedCamera, CameraManager.call, hs, hc,
    MainWindow.consoleLog, CameraManager.getSelectedCameraInfo, CameraManager.camera]

theorem MainWindow.toggleCamera_true_some (w : MainWindow) (i : Nat) (c : QCamera)
    (hs : w.cameraManager.selectedCamera = some i) (hc : w.cameraManager.cameras[i]? = some c) :
    MainWindow.toggleCamera true w = Except.ok
      { w with
        console := w.console ++ [ConsoleLine.log ("Starting camera " ++ c.info.description)]
        cameraManager := ⟨w.cameraManager.cameras.set i c.load.start, some i⟩
        fpsTimerActive := true } := by
  have hi : i < w.cameraManager.cameras.length := by
    rcases List.getElem?_eq_some_iff.mp hc with ⟨h, _⟩
    exact h
  simp [MainWindow.toggleCamera, CameraManager.getSelectedCamera, CameraManager.call, hs, hc,
    MainWindow.consoleLog, CameraManager.getSelectedCameraInfo, CameraManager.camera, hi]

theorem MainWindow.onCameraChanged_last (w : MainWindow) (l : List QCamera) (c : QCamera)
    (hm : w.cameraManager = ⟨l ++ [c], some l.length⟩) :
    ∃ w1, MainWindow.onCameraChanged (some l.length) w = Except.ok w1
      ∧ w1.actionToggleCameraChecked = false
      ∧ w1.fpsTimerActive = (if w.actionToggleCameraChecked then false else w.fpsTimerActive)
      ∧ w1.cameraManager = ⟨l ++ [⟨c.info,
            if w.actionToggleCameraChecked then QCameraState.LoadedState else c.state, true⟩],
          some l.length⟩
      ∧ w1.cameraComboBox = w.cameraComboBox
      ∧ w1.cameraComboBoxActionVisible = w.cameraComboBoxActionVisible
      ∧ w1.cameraComboBoxActionEnabled = w.cameraComboBoxActionEnabled
      ∧ w1.framesInCurrentSecond = w.framesInCurrentSecond := by
  have hl : (l ++ [c])[l.length]? = some c := List.getElem?_concat_length l c
  obtain ⟨m, cb, cbv, cbe, cdv, chk, tmr, sb, fr, con, odp, ri, sc, fs, rbs, ffe⟩ := w
  simp only at hm
  subst hm
  cases chk
  · simp [MainWindow.onCameraChanged, MainWindow.actionToggleCameraSetChecked,
      CameraManager.call, hl, QCamera.setViewfinder]
  · simp [MainWindow.onCameraChanged, MainWindow.actionToggleCameraSetChecked,
      MainWindow.toggleCamera, MainWindow.consoleLog, CameraManager.getSelectedCamera,
      CameraManager.call, hl, QCamera.setViewfinder, QCamera.stop]

theorem CameraManager.changeSelectedCamera_cases (m : CameraManager) (info : QCameraInfo)
    (hb : ∀ i, m.selectedCamera = some i → i < m.cameras.length)
    (hc : ∀ j c, m.cameras[j]? = some c → c.state = QCameraState.ActiveState →
      m.selectedCamera = some j) :
    (m.changeSelectedCamera info = (m, none) ∧ m.getSelectedCameraInfo = info)
    ∨ ∃ l, m.changeSelectedCamera info
          = (⟨l ++ [⟨info, QCameraState.UnloadedState, false⟩], some l.length⟩, some l.length)
        ∧ l.length = m.cameras.length
        ∧ (m.getSelectedCameraInfo ≠ info ∨ m.selectedCamera = none)
        ∧ ∀ c ∈ l, c.state ≠ QCameraState.ActiveState := by
  obtain ⟨cams, sel⟩ := m
  simp only at hb hc
  cases sel with
  | none =>
    right
    refine ⟨cams, by simp [CameraManager.changeSelectedCamera], rfl, Or.inr rfl, ?_⟩
    intro c hmem hact
    obtain ⟨j, hj⟩ := List.getElem?_of_mem hmem
    have := hc j c hj hact
    simp at this
  | some i =>
    have hi : i < cams.length := hb i rfl
    have hget : cams[i]? = some cams[i] := List.getElem?_eq_getElem hi
    by_cases hinfo : cams[i].info = info
    · left
      simp [CameraManager.changeSelectedCamera, CameraManager.camera, hget, hinfo,
        CameraManager.getSelectedCameraInfo]
    · right
      have hne : CameraManager.getSelectedCameraInfo ⟨cams, some i⟩ ≠ info := by
        simpa [CameraManager.getSelectedCameraInfo, CameraManager.camera, hget] using hinfo
      by_cases hact : cams[i].state = QCameraState.ActiveState
      · refine ⟨cams.set i cams[i].stop, ?_, by simp, Or.inl hne, ?_⟩
        · simp [CameraManager.changeSelectedCamera, CameraManager.camera, hget, hinfo, hact]
        · intro c hmem hcact
          obtain ⟨j, hj⟩ := List.getElem?_of_mem hmem
          rw [List.getElem?_set] at hj
          by_cases hij : i = j
          · simp [hij, QCamera.stop] at hj
            rcases hj with ⟨_, hj⟩
            rw [← hj] at hcact
            simp at hcact
          · simp only [if_neg hij] at hj
            have hji := hc j c hj hcact
            simp at hji
            exact hij hji
      · refine ⟨cams, ?_, rfl, Or.inl hne, ?_⟩
        · simp [CameraManager.changeSelectedCamera, CameraManager.camera, hget, hinfo, hact]
        · intro c hmem hcact
          obtain ⟨j, hj⟩ := List.getElem?_of_mem hmem
          have hji := hc j c hj hcact
          simp at hji
          subst hji
          rw [hget] at hj
          have hcc : cams[i] = c := Option.some.inj hj
          rw [hcc] at hact
          exact hact hcact

theorem MainWindow.changeSelectedCamera_sane (w : MainWindow) (info : QCameraInfo)
    (hs : w.Sane) :
    (MainWindow.changeSelectedCamera info w = Except.ok w
      ∧ w.cameraManager.getSelectedCameraInfo = info)
    ∨ ∃ w1 l st, MainWindow.changeSelectedCamera info w = Except.ok w1
        ∧ w1.actionToggleCameraChecked = false
        ∧ w1.fpsTimerActive = false
        ∧ w1.cameraManager = ⟨l ++ [⟨info, st, true⟩], some l.length⟩
        ∧ st ≠ QCameraState.ActiveState
        ∧ (∀ c ∈ l, c.state ≠ QCameraState.ActiveState)
        ∧ l.length = w.cameraManager.cameras.length
        ∧ w1.cameraComboBox = w.cameraComboBox
        ∧ w1.cameraComboBoxActionVisible = w.cameraComboBoxActionVisible
        ∧ w1.cameraComboBoxActionEnabled = w.cameraComboBoxActionEnabled
        ∧ w1.framesInCurrentSecond = w.framesInCurrentSecond := by
  obtain ⟨ht, hb, hc⟩ := hs
  rcases CameraManager.changeSelectedCamera_cases w.cameraManager info hb hc with
    ⟨h1, h2⟩ | ⟨l, h1, h2, _, h3⟩
  · left
    refine ⟨?_, h2⟩
    simp [MainWindow.changeSelectedCamera, h1]
  · right
    obtain ⟨w1, e1, e2, e3, e4, e5, e6, e7, e8⟩ := MainWindow.onCameraChanged_last
      { w with cameraManager := ⟨l ++ [⟨info, QCameraState.UnloadedState, false⟩], some l.length⟩ }
      l ⟨info, QCameraState.UnloadedState, false⟩ rfl
    refine ⟨w1, l, _, ?_, e2, ?_, e4, ?_, h3, h2, e5, e6, e7, e8⟩
    · simp only [MainWindow.changeSelectedCamera, h1]
      exact e1
    · rw [e3]
      simp only
      rw [ht]
      cases w.actionToggleCameraChecked <;> rfl
    · simp only
      cases w.actionToggleCameraChecked <;> simp

theorem MainWindow.step_sane (ty : IntType) (w w1 : MainWindow) (e : Event) (hs : w.Sane)
    (h : MainWindow.step ty w e = Except.ok w1) : w1.Sane := by
  cases e with
  | frameReceived =>
    simp only [MainWindow.step, Except.ok.injEq] at h
    subst h
    exact hs
  | timeout =>
    simp only [MainWindow.step] at h
    split at h <;> · simp only [Except.ok.injEq] at h; subst h; exact hs
  | cameraActivated info =>
    simp only [MainWindow.step] at h
    rcases MainWindow.changeSelectedCamera_sane w info hs with
      ⟨h1, _⟩ | ⟨w2, l, st, h1, h2, h3, h4, h5, h6, _⟩
    · rw [h1] at h
      simp only [Except.ok.injEq] at h
      subst h
      exact hs
    · rw [h1] at h
      simp only [Except.ok.injEq] at h
      subst h
      refine ⟨by rw [h2, h3], ?_, ?_⟩
      · intro i hi
        rw [h4] at hi ⊢
        simp at hi
        simp [← hi]
      · intro j c hj hact
        rw [h4] at hj ⊢
        exfalso
        have hmem := List.getElem?_mem hj
        rcases List.mem_append.mp hmem with hm | hm
        · exact h6 c hm hact
        · simp at hm
          rw [hm] at hact
          exact h5 hact
  | toggleClicked =>
    obtain ⟨ht, hb, hc⟩ := hs
    simp only [MainWindow.step, MainWindow.actionToggleCameraSetChecked] at h
    rw [if_neg (by cases w.actionToggleCameraChecked <;> simp)] at h
    cases hsel : w.cameraManager.selectedCamera with
    | none =>
      rw [MainWindow.toggleCamera_null _ _ (by simpa using hsel)] at h
      simp at h
    | some i =>
      have hi := hb i hsel
      have hget : w.cameraManager.cameras[i]? = some w.cameraManager.cameras[i] :=
        List.getElem?_eq_getElem hi
      cases hchk : w.actionToggleCameraChecked
      · rw [hchk] at h
        simp only [Bool.not_false] at h
        rw [MainWindow.toggleCamera_true_some { w with actionToggleCameraChecked := true } i
          w.cameraManager.cameras[i] hsel hget] at h
        simp only [Except.ok.injEq] at h
        subst h
        refine ⟨rfl, ?_, ?_⟩
        · intro k hk
          simp at hk
          simp [← hk, hi]
        · intro j c hj hact
          simp only at hj ⊢
          rw [List.getElem?_set] at hj
          by_cases hij : i = j
          · rw [hij]
          · rw [if_neg hij] at hj
            rw [← hsel]
            exact hc j c hj hact
      · rw [hchk] at h
        simp only [Bool.not_true] at h
        rw [MainWindow.toggleCamera_false_some { w with actionToggleCameraChecked := false } i
          w.cameraManager.cameras[i] hsel hget] at h
        simp only [Except.ok.injEq] at h
        subst h
        refine ⟨rfl, ?_, ?_⟩
        · intro k hk
          simp at hk
          simp [← hk, hi]
        · intro j c hj hact
          simp only at hj ⊢
          rw [List.getElem?_set] at hj
          by_cases hij : i = j
          · rw [hij]
          · rw [if_neg hij] at hj
            rw [← hsel]
            exact hc j c hj hact

theorem MainWindow.run_sane (ty : IntType) (es : List Event) (w w1 : MainWindow) (hs : w.Sane)
    (h : MainWindow.run ty w es = Except.ok w1) : w1.Sane := by
  induction es generalizing w with
  | nil =>
    simp only [MainWindow.run, Except.ok.injEq] at h
    subst h
    exact hs
  | cons e es ih =>
    simp only [MainWindow.run] at h
    cases hstep : MainWindow.step ty w e with
    | error f => rw [hstep] at h; simp at h
    | ok w2 =>
      rw [hstep] at h
      exact ih w2 (MainWindow.step_sane ty w w2 e hs hstep) h

theorem MainWindow.addItems_foldl (cameras : List QCameraInfo) (w : MainWindow) :
    cameras.foldl
      (fun w cameraInfo =>
        { MainWindow.consoleLog cameraInfo.description w with
          cameraComboBox := w.cameraComboBox ++ [(cameraInfo.description, cameraInfo)] }) w
    = { w with
        console := w.console ++ cameras.map (fun c => ConsoleLine.log c.description)
        cameraComboBox := w.cameraComboBox ++ cameras.map (fun c => (c.description, c)) } := by
  induction cameras generalizing w with
  | nil => simp
  | cons c cs ih =>
    rw [List.foldl_cons, ih]
    simp [MainWindow.consoleLog]

theorem MainWindow.setup_sane (frames : Int) (outputDirectory : String) :
    (MainWindow.setup frames outputDirectory).Sane := by
  refine ⟨rfl, ?_, ?_⟩
  · intro i hi
    simp [MainWindow.setup] at hi
  · intro j c hj
    simp [MainWindow.setup] at hj

theorem MainWindow.detectCameras_setup (frames : Int) (outputDirectory : String)
    (first : QCameraInfo) (rest : List QCameraInfo) :
    ∃ w, MainWindow.detectCameras (first :: rest) (MainWindow.setup frames outputDirectory)
        = Except.ok w
      ∧ w.cameraComboBox = (first :: rest).map (fun c => (c.description, c))
      ∧ w.cameraManager = ⟨[⟨first, QCameraState.UnloadedState, true⟩], some 0⟩
      ∧ w.fpsTimerActive = false
      ∧ w.actionToggleCameraChecked = false
      ∧ w.cameraComboBoxActionVisible = true
      ∧ w.cameraComboBoxActionEnabled = (if rest.length = 0 then false else true)
      ∧ w.framesInCurrentSecond = frames := by
  simp only [MainWindow.detectCameras, MainWindow.addItems_foldl]
  by_cases hr : rest.length = 0
  · simp [MainWindow.changeSelectedCamera, CameraManager.changeSelectedCamera,
      MainWindow.setup, MainWindow.consoleLog, MainWindow.onCameraChanged,
      MainWindow.actionToggleCameraSetChecked, CameraManager.call, QCamera.setViewfinder, hr]
  · simp [MainWindow.changeSelectedCamera, CameraManager.changeSelectedCamera,
      MainWindow.setup, MainWindow.consoleLog, MainWindow.onCameraChanged,
      MainWindow.actionToggleCameraSetChecked, CameraManager.call, QCamera.setViewfinder, hr]

theorem MainWindow.construct_sane (frames : Int) (outputDirectory : String)
    (cameras : List QCameraInfo) (faceDetect grayscale : AbstractFilter) (w : MainWindow)
    (h : MainWindow.construct frames outputDirectory cameras faceDetect grayscale = Except.ok w) :
    w.Sane := by
  cases cameras with
  | nil =>
    simp [MainWindow.construct, MainWindow.detectCameras, MainWindow.registerFilters,
      MainWindow.registerFilter, MainWindow.consoleError, MainWindow.setup] at h
    subst h
    refine ⟨rfl, ?_, ?_⟩
    · intro i hi
      simp at hi
    · intro j c hj
      simp at hj
  | cons first rest =>
    obtain ⟨w1, h1, _, h3, h4, h5, _⟩ :=
      MainWindow.detectCameras_setup frames outputDirectory first rest
    simp only [MainWindow.construct, h1, Except.ok.injEq] at h
    subst h
    refine ⟨?_, ?_, ?_⟩
    · simp [MainWindow.registerFilters, MainWindow.registerFilter, h4, h5]
    · intro i hi
      simp [MainWindow.registerFilters, MainWindow.registerFilter, h3] at hi ⊢
      omega
    · intro j c hj hact
      simp [MainWindow.registerFilters, MainWindow.registerFilter, h3] at hj ⊢
      have hmem := List.getElem?_mem hj
      simp at hmem
      rw [hmem] at hact
      simp at hact

theorem MainWindow.run_passive (ty : IntType) (es : List Event) (w : MainWindow)
    (hes : ∀ e ∈ es, e = Event.frameReceived ∨ e = Event.timeout) :
    ∃ w1, MainWindow.run ty w es = Except.ok w1
      ∧ w1.cameraManager = w.cameraManager
      ∧ w1.fpsTimerActive = w.fpsTimerActive
      ∧ w1.actionToggleCameraChecked = w.actionToggleCameraChecked := by
  induction es generalizing w with
  | nil => exact ⟨w, rfl, rfl, rfl, rfl⟩
  | cons e es ih =>
    have he := hes e (List.mem_cons_self e es)
    have hes1 : ∀ e ∈ es, e = Event.frameReceived ∨ e = Event.timeout :=
      fun e1 h1 => hes e1 (List.mem_cons_of_mem e h1)
    rcases he with he | he
    · subst he
      obtain ⟨w1, h1, h2, h3, h4⟩ := ih (MainWindow.processFrame ty w) hes1
      exact ⟨w1, by simpa [MainWindow.run, MainWindow.step] using h1, h2, h3, h4⟩
    · subst he
      by_cases ht : w.fpsTimerActive = true
      · obtain ⟨w1, h1, h2, h3, h4⟩ := ih (MainWindow.updateFps w) hes1
        exact ⟨w1, by simpa [MainWindow.run, MainWindow.step, ht] using h1, h2, h3, h4⟩
      · obtain ⟨w1, h1, h2, h3, h4⟩ := ih w hes1
        exact ⟨w1, by simpa [MainWindow.run, MainWindow.step, ht] using h1, h2, h3, h4⟩

/-- C6: when the enumeration is empty, `detectCameras` leaves the camera
manager untouched (nothing is selected), adds no entry to the chooser, hides
the chooser, shows the console with the error logged, and leaves timer and
start/stop action as they are.  The constructed window then has no camera
object, no selection, an idle timer and an unchecked action, and frames and
timer events alone never change that. -/
theorem MainWindow.detectCameras_no_camera (ty : IntType) (w : MainWindow) (frames : Int)
    (outputDirectory : String) (faceDetect grayscale : AbstractFilter) :
    (∃ w1, MainWindow.detectCameras [] w = Except.ok w1
      ∧ w1.cameraManager = w.cameraManager
      ∧ w1.cameraComboBox = w.cameraComboBox
      ∧ w1.cameraComboBoxActionVisible = false
      ∧ w1.consoleDockWidgetVisible = true
      ∧ w1.console = w.console ++ [ConsoleLine.error "No available cameras detected!"]
      ∧ w1.fpsTimerActive = w.fpsTimerActive
      ∧ w1.actionToggleCameraChecked = w.actionToggleCameraChecked)
    ∧ ∃ w2, MainWindow.construct frames outputDirectory [] faceDetect grayscale = Except.ok w2
      ∧ w2.cameraManager = ⟨[], none⟩
      ∧ w2.cameraComboBox = []
      ∧ w2.cameraComboBoxActionVisible = false
      ∧ w2.consoleDockWidgetVisible = true
      ∧ w2.fpsTimerActive = false
      ∧ w2.actionToggleCameraChecked = false
      ∧ ∀ es : List Event, (∀ e ∈ es, e = Event.frameReceived ∨ e = Event.timeout) →
          ∃ w3, MainWindow.run ty w2 es = Except.ok w3
            ∧ w3.cameraManager = ⟨[], none⟩
            ∧ w3.fpsTimerActive = false
            ∧ w3.actionToggleCameraChecked = false := by
  constructor
  · exact ⟨_, rfl, rfl, rfl, rfl, rfl, rfl, rfl, rfl⟩
  · refine ⟨_, rfl, rfl, rfl, rfl, rfl, rfl, rfl, ?_⟩
    intro es hes
    obtain ⟨w3, h1, h2, h3, h4⟩ := MainWindow.run_passive ty es _ hes
    exact ⟨w3, h1, h2, h3, h4⟩

/-- C7: for a non-empty enumeration `first :: rest`, `detectCameras` run by the
constructor fills the chooser with one entry per device in enumeration order,
creates exactly one camera object, for `first`, and selects it; the camera is
not started (it is unloaded, with the frame surface as viewfinder), the rate
timer is idle and the start/stop action is unchecked. -/
theorem MainWindow.detectCameras_selects_first (frames : Int) (outputDirectory : String)
    (first : QCameraInfo) (rest : List QCameraInfo) :
    ∃ w, MainWindow.detectCameras (first :: rest) (MainWindow.setup frames outputDirectory)
        = Except.ok w
      ∧ w.cameraComboBox = (first :: rest).map (fun c => (c.description, c))
      ∧ w.cameraComboBox.length = (first :: rest).length
      ∧ w.cameraManager.cameras = [⟨first, QCameraState.UnloadedState, true⟩]
      ∧ w.cameraManager.selectedCamera = some 0
      ∧ w.cameraManager.getSelectedCameraInfo = first
      ∧ w.fpsTimerActive = false
      ∧ w.actionToggleCameraChecked = false := by
  obtain ⟨w, h1, h2, h3, h4, h5, _⟩ :=
    MainWindow.detectCameras_setup frames outputDirectory first rest
  refine ⟨w, h1, h2, ?_, ?_, ?_, ?_, h4, h5⟩
  · rw [h2]; simp
  · rw [h3]
  · rw [h3]
  · rw [CameraManager.getSelectedCameraInfo, h3]; rfl

/-- In every state with a selected camera, `toggleCamera(false)` completes,
leaves that camera selected and stopped (state loaded, not active), stops the
rate timer and clears the status bar, whether or not the camera was running. -/
theorem MainWindow.toggleCamera_false_stops (w : MainWindow) (i : Nat) (c : QCamera)
    (hs : w.cameraManager.selectedCamera = some i) (hc : w.cameraManager.cameras[i]? = some c) :
    ∃ w1, MainWindow.toggleCamera false w = Except.ok w1
      ∧ w1.cameraManager.selectedCamera = some i
      ∧ w1.cameraManager.cameras[i]? = some ⟨c.info, QCameraState.LoadedState, c.viewfinderSet⟩
      ∧ w1.cameraManager.cameras.length = w.cameraManager.cameras.length
      ∧ w1.fpsTimerActive = false
      ∧ w1.statusBar = "" := by
  have hi : i < w.cameraManager.cameras.length := (List.getElem?_eq_some_iff.mp hc).1
  refine ⟨_, MainWindow.toggleCamera_false_some w i c hs hc, rfl, ?_, ?_, rfl, rfl⟩
  · simp [hi, QCamera.stop]
  · simp

/-- Stopping the running camera of `runningExample`. -/
theorem MainWindow.toggleCamera_false_stops_witness :
    ∃ w1, MainWindow.toggleCamera false MainWindow.runningExample = Except.ok w1
      ∧ w1.cameraManager.selectedCamera = some 0
      ∧ w1.cameraManager.cameras[0]?
          = some ⟨⟨"video0", "Webcam"⟩, QCameraState.LoadedState, true⟩
      ∧ w1.cameraManager.cameras.length = 1
      ∧ w1.fpsTimerActive = false
      ∧ w1.statusBar = "" :=
  MainWindow.toggleCamera_false_stops MainWindow.runningExample 0
    ⟨⟨"video0", "Webcam"⟩, QCameraState.ActiveState, true⟩ rfl rfl

/-- C8, the code at the failing input: the window constructed from an empty
enumeration has no selected camera, and `toggleCamera(false)` calls `stop()`
through the null pointer instead of completing; `toggleCamera(true)` runs into
the same null pointer with `load()`. -/
theorem MainWindow.toggleCamera_false_no_camera :
    ∃ w, MainWindow.construct 0 "/tmp" [] ⟨"Face detect", false⟩ ⟨"Grayscale", false⟩
        = Except.ok w
      ∧ w.cameraManager.getSelectedCamera = none
      ∧ MainWindow.toggleCamera false w = Except.error Fault.nullPointer
      ∧ MainWindow.toggleCamera true w = Except.error Fault.nullPointer :=
  ⟨_, rfl, rfl, rfl, rfl⟩

/-- C9: in every state the window reaches from its construction by user and
device events, selecting a camera other than the current one ends, once
`onCameraChanged` has handled the notification, with the start/stop action
unchecked, the rate timer idle, the new camera selected, not active and with
the frame surface as its viewfinder, and no other camera object active: the
previous one was stopped and the new one has not been started. -/
theorem MainWindow.changeSelectedCamera_ends_stopped (ty : IntType) (frames : Int)
    (outputDirectory : String) (cameras : List QCameraInfo) (faceDetect grayscale : AbstractFilter)
    (es : List Event) (w0 w : MainWindow) (info : QCameraInfo)
    (h0 : MainWindow.construct frames outputDirectory cameras faceDetect grayscale = Except.ok w0)
    (hr : MainWindow.run ty w0 es = Except.ok w)
    (hne : w.cameraManager.getSelectedCameraInfo ≠ info) :
    ∃ w1 previous state, MainWindow.changeSelectedCamera info w = Except.ok w1
      ∧ w1.actionToggleCameraChecked = false
      ∧ w1.fpsTimerActive = false
      ∧ w1.cameraManager.cameras = previous ++ [⟨info, state, true⟩]
      ∧ w1.cameraManager.selectedCamera = some previous.length
      ∧ w1.cameraManager.camera w1.cameraManager.selectedCamera = some ⟨info, state, true⟩
      ∧ state ≠ QCameraState.ActiveState
      ∧ previous.length = w.cameraManager.cameras.length
      ∧ ∀ c ∈ w1.cameraManager.cameras, c.state ≠ QCameraState.ActiveState := by
  have hs : w.Sane := MainWindow.run_sane ty es w0 w
    (MainWindow.construct_sane frames outputDirectory cameras faceDetect grayscale w0 h0) hr
  rcases MainWindow.changeSelectedCamera_sane w info hs with
    ⟨_, h2⟩ | ⟨w1, l, st, h1, h2, h3, h4, h5, h6, h7, _⟩
  · exact absurd h2 hne
  · refine ⟨w1, l, st, h1, h2, h3, by rw [h4], by rw [h4], ?_, h5, h7, ?_⟩
    · rw [h4]
      simp [CameraManager.camera]
    · intro c hc
      rw [h4] at hc
      rcases List.mem_append.mp hc with hm | hm
      · exact h6 c hm
      · simp at hm
        rw [hm]
        exact h5

/-- Witness of C9: two cameras, the first one started and delivering frames,
then the second one is chosen. -/
theorem MainWindow.changeSelectedCamera_ends_stopped_witness :
    ∃ w1 previous state,
      MainWindow.changeSelectedCamera ⟨"video1", "Second"⟩
          { MainWindow.runningExample with framesInCurrentSecond := 2 } = Except.ok w1
      ∧ w1.actionToggleCameraChecked = false
      ∧ w1.fpsTimerActive = false
      ∧ w1.cameraManager.cameras = previous ++ [⟨⟨"video1", "Second"⟩, state, true⟩]
      ∧ w1.cameraManager.selectedCamera = some previous.length
      ∧ w1.cameraManager.camera w1.cameraManager.selectedCamera
          = some ⟨⟨"video1", "Second"⟩, state, true⟩
      ∧ state ≠ QCameraState.ActiveState
      ∧ previous.length = 1
      ∧ ∀ c ∈ w1.cameraManager.cameras, c.state ≠ QCameraState.ActiveState :=
  MainWindow.changeSelectedCamera_ends_stopped int32 0 "/tmp" [⟨"video0", "Webcam"⟩]
    ⟨"Face detect", false⟩ ⟨"Grayscale", false⟩
    [Event.toggleClicked, Event.frameReceived, Event.frameReceived, Event.frameReceived,
      Event.timeout, Event.frameReceived, Event.frameReceived]
    _ _ ⟨"video1", "Second"⟩ rfl rfl (by decide)

/-! ## Snapshots -/

theorem MainWindow.grabImageFileName_eq (loc : QLocale) (now : QDateTime) :
    MainWindow.grabImageFileName loc now
      = String.mk (quoteChar :: (longLongToString now.year (if now.year < 0 then 5 else 4)
          ++ (zeroPadded now.month 2 ++ (zeroPadded now.day 2 ++ (Char.ofNat 95 ::
            (zeroPadded now.hour 2 ++ (zeroPadded now.minute 2 ++ (zeroPadded now.second 2
              ++ (zeroPadded now.msec 3 ++ ".jpg".data))))))))) := by
  rfl

theorem snapshotPattern_eq (loc : QLocale) (now : QDateTime) :
    snapshotPattern loc now
      = String.mk (longLongToString now.year (if now.year < 0 then 5 else 4)
          ++ (zeroPadded now.month 2 ++ (zeroPadded now.day 2 ++ (Char.ofNat 95 ::
            (zeroPadded now.hour 2 ++ (zeroPadded now.minute 2 ++ (zeroPadded now.second 2
              ++ (zeroPadded now.msec 3 ++ ".jpg".data)))))))) := by
  rfl

/-- C4, the code at the failing input: for every local time the file name
`grabImage` generates is a single quote followed by the pattern
`yyyyMMdd_HHmmsszzz.jpg` instantiated at that time, hence never the pattern
itself; on 7 June 2015 at 08:09:10.011 the name is `'20150607_080910011.jpg`
and the path handed to `QImage::save` is that name inside the output
directory. -/
theorem MainWindow.grabImage_fileName_leading_quote (loc : QLocale) (now : QDateTime) :
    MainWindow.grabImageFileName loc now = String.mk (quoteChar :: (snapshotPattern loc now).data)
    ∧ MainWindow.grabImageFileName loc now ≠ snapshotPattern loc now
    ∧ MainWindow.grabImageFileName englishLocale sampleTime = "'20150607_080910011.jpg"
    ∧ snapshotPattern englishLocale sampleTime = "20150607_080910011.jpg"
    ∧ (MainWindow.grabImage englishLocale sampleTime true MainWindow.renderedExample).2.saveCalls
        = ["/home/user/shots/'20150607_080910011.jpg"] := by
  refine ⟨?_, ?_, by decide, by decide, by decide⟩
  · rw [MainWindow.grabImageFileName_eq, snapshotPattern_eq]
  · rw [MainWindow.grabImageFileName_eq, snapshotPattern_eq]
    intro h
    have h2 := congrArg String.data h
    simp only at h2
    exact absurd h2 (List.cons_ne_self _ _)

/-- C5, as amended: in every case `grabImage` hands the rendered image and the
generated path to `QImage::save` and returns its boolean result, true exactly
when the image is not null and encoding and writing succeed; the console gets
"Saved image to" or "Cold not save image to" with the path.  When no frame
has been rendered the result is false. -/
theorem MainWindow.grabImage_result (loc : QLocale) (now : QDateTime) (ioOk : Bool)
    (w : MainWindow) :
    (MainWindow.grabImage loc now ioOk w).1 = (!w.renderedImage.isNull && ioOk)
    ∧ (MainWindow.grabImage loc now ioOk w).2.saveCalls
        = w.saveCalls ++ [filePath (toNativeSeparators w.outputDirectoryPath)
            (MainWindow.grabImageFileName loc now)]
    ∧ (MainWindow.grabImage loc now ioOk w).2.console
        = w.console ++ [ConsoleLine.log
            ((if (MainWindow.grabImage loc now ioOk w).1 then "Saved image to "
              else "Cold not save image to ")
              ++ filePath (toNativeSeparators w.outputDirectoryPath)
                  (MainWindow.grabImageFileName loc now))]
    ∧ (MainWindow.grabImage loc now ioOk { w with renderedImage := ⟨true⟩ }).1 = false
    ∧ (MainWindow.grabImage loc now ioOk w).2.renderedImage = w.renderedImage
    ∧ (MainWindow.grabImage loc now ioOk w).2.cameraManager = w.cameraManager
    ∧ (MainWindow.grabImage loc now ioOk w).2.fpsTimerActive = w.fpsTimerActive := by
  cases hn : w.renderedImage.isNull <;> cases ioOk <;>
    simp [MainWindow.grabImage, QImage.save, hn, MainWindow.consoleLog]

/-- C5 as stated fails: a snapshot before any frame has been rendered and a
snapshot whose file cannot be written both go through `QImage::save` and give
the same result, false, and the same console line; nothing tells them apart. -/
theorem MainWindow.grabImage_no_frame_like_write_failure :
    (MainWindow.grabImage englishLocale sampleTime true MainWindow.noFrameExample).1 = false
    ∧ (MainWindow.grabImage englishLocale sampleTime false MainWindow.renderedExample).1 = false
    ∧ (MainWindow.grabImage englishLocale sampleTime true MainWindow.noFrameExample).2.console
        = (MainWindow.grabImage englishLocale sampleTime false MainWindow.renderedExample).2.console
    ∧ (MainWindow.grabImage englishLocale sampleTime true MainWindow.noFrameExample).2.saveCalls
        = ["/home/user/shots/'20150607_080910011.jpg"]
    ∧ (MainWindow.grabImage englishLocale sampleTime true MainWindow.noFrameExample).2.console.getLast?
        = some (ConsoleLine.log
            "Cold not save image to /home/user/shots/'20150607_080910011.jpg") := by
  decide

/-! ## Rate across start and stop -/

/-- C10, the code at the failing input: the camera is started, three frames
arrive, it is stopped and started again within the first second, two more
frames arrive and the timer fires.  `updateFps` shows "5 FPS"; the window that
just ended began at the restart and received two frames. -/
theorem MainWindow.rateReports_after_restart :
    MainWindow.rateReports int32 MainWindow.stoppedExample restartTrace = ["5 FPS"]
    ∧ windowRates false 0 restartTrace = [2] := by
  decide

/-! ## Filter controls -/

theorem getElem?_setCheckedRaw (q : Nat) (v : Bool) (bs : List QRadioButton) (j : Nat) :
    (MainWindow.setCheckedRaw q v bs)[j]?
      = if j = q then (bs[j]?).map (fun b => { b with checked := v }) else bs[j]? := by
  unfold MainWindow.setCheckedRaw
  cases hq : bs[q]? with
  | none =>
    by_cases hj : j = q
    · subst hj; simp [hq]
    · simp [hj]
  | some b =>
    have hlt : q < bs.length := (List.getElem?_eq_some_iff.mp hq).1
    simp only [List.getElem?_set]
    by_cases hj : j = q
    · subst hj; simp [hq, hlt]
    · have : ¬ q = j := fun h => hj h.symm
      simp [hj, this]

theorem length_setCheckedRaw (q : Nat) (v : Bool) (bs : List QRadioButton) :
    (MainWindow.setCheckedRaw q v bs).length = bs.length := by
  unfold MainWindow.setCheckedRaw
  cases bs[q]? <;> simp

theorem isChecked_setCheckedRaw (q : Nat) (v : Bool) (bs : List QRadioButton) (j : Nat) :
    MainWindow.isChecked (MainWindow.setCheckedRaw q v bs) j
      = if j = q ∧ q < bs.length then v else MainWindow.isChecked bs j := by
  unfold MainWindow.isChecked
  rw [getElem?_setCheckedRaw]
  by_cases hj : j = q
  · subst hj
    by_cases hlt : j < bs.length
    · simp [hlt, List.getElem?_eq_getElem hlt]
    · simp [hlt, List.getElem?_eq_none (Nat.le_of_not_lt hlt)]
  · simp [hj]

theorem isAutoExclusive_setCheckedRaw (q : Nat) (v : Bool) (bs : List QRadioButton) (j : Nat) :
    MainWindow.isAutoExclusive (MainWindow.setCheckedRaw q v bs) j
      = MainWindow.isAutoExclusive bs j := by
  unfold MainWindow.isAutoExclusive
  rw [getElem?_setCheckedRaw]
  by_cases hj : j = q
  · subst hj
    cases bs[j]? <;> simp
  · simp [hj]

theorem isChecked_lt (bs : List QRadioButton) (j : Nat) (h : MainWindow.isChecked bs j = true) :
    j < bs.length := by
  unfold MainWindow.isChecked at h
  by_contra hlt
  rw [List.getElem?_eq_none (Nat.le_of_not_lt hlt)] at h
  simp at h

theorem length_setFilterEnabled (rx : Bool) (k : Nat) (v : Bool) (fs : List AbstractFilter) :
    (MainWindow.setFilterEnabled rx k v fs).length = fs.length := by
  unfold MainWindow.setFilterEnabled
  cases fs[k]? with
  | none => rfl
  | some f =>
    simp only
    split <;> simp

theorem isEnabled_setFilterEnabled (rx : Bool) (k : Nat) (v : Bool) (fs : List AbstractFilter)
    (j : Nat) :
    isEnabled (MainWindow.setFilterEnabled rx k v fs) j
      = if k < fs.length then
          (if j = k then v else if (v && rx) = true then false else isEnabled fs j)
        else isEnabled fs j := by
  unfold MainWindow.setFilterEnabled isEnabled
  by_cases hlt : k < fs.length
  · rw [List.getElem?_eq_getElem hlt]
    simp only [hlt, if_true]
    by_cases hv : (v && rx) = true
    · simp only [hv, if_true, List.getElem?_set, List.length_map, hlt]
      have hvt : v = true := by
        cases v
        · simp at hv
        · rfl
      by_cases hj : j = k
      · subst hj
        simp [hvt]
      · have : ¬ k = j := fun h => hj h.symm
        simp only [this, if_false, hj, List.getElem?_map]
        cases fs[j]? <;> simp
    · simp only [hv, List.getElem?_set, hlt]
      by_cases hj : j = k
      · subst hj
        simp [hlt]
      · have : ¬ k = j := fun h => hj h.symm
        simp [this, hj]
  · rw [List.getElem?_eq_none (Nat.le_of_not_lt hlt)]
    simp [hlt]

theorem MainWindow.resetRadioButton_some (rx : Bool) (w : MainWindow) (i : Nat)
    (b : QRadioButton) (h : w.filterRadioButtons[i]? = some b) :
    MainWindow.resetRadioButton rx w i
      = { w with
          filterRadioButtons :=
            w.filterRadioButtons.set i { b with checked := false, autoExclusive := true }
          filters :=
            if b.checked then MainWindow.setFilterEnabled rx b.filter false w.filters
            else w.filters } := by
  obtain ⟨m, cb, cbv, cbe, cdv, chk, tmr, sb, fr, con, odp, ri, sc, fs, rbs, ffe⟩ := w
  simp only at h
  have hlt : i < rbs.length := (List.getElem?_eq_some_iff.mp h).1
  cases hb : b.checked
  · simp [MainWindow.resetRadioButton, MainWindow.setAutoExclusive, MainWindow.radioSetChecked,
      MainWindow.radioUncheck, MainWindow.isChecked, h, hlt, hb]
  · simp [MainWindow.resetRadioButton, MainWindow.setAutoExclusive, MainWindow.radioSetChecked,
      MainWindow.radioUncheck, MainWindow.isChecked, MainWindow.isAutoExclusive,
      MainWindow.emitToggled, MainWindow.setCheckedRaw, h, hlt, hb]

theorem MainWindow.setFilterEnabled_false_disabled (rx : Bool) (k : Nat)
    (fs : List AbstractFilter) (h : ∀ f ∈ fs, f.enabled = false) :
    ∀ f ∈ MainWindow.setFilterEnabled rx k false fs, f.enabled = false := by
  intro f hf
  unfold MainWindow.setFilterEnabled at hf
  cases hk : fs[k]? with
  | none =>
    rw [hk] at hf
    exact h f hf
  | some g =>
    rw [hk] at hf
    simp only [Bool.false_and, Bool.false_eq_true, if_false] at hf
    rcases List.mem_or_eq_of_mem_set hf with h1 | h1
    · exact h f h1
    · rw [h1]

theorem MainWindow.reset_loop (rx : Bool) (w : MainWindow)
    (hdis : ∀ f ∈ w.filters, f.enabled = false) (k : Nat) (hk : k ≤ w.filterRadioButtons.length) :
    ((List.range k).foldl (MainWindow.resetRadioButton rx) w).filterRadioButtons.length
        = w.filterRadioButtons.length
    ∧ (∀ j, ((List.range k).foldl (MainWindow.resetRadioButton rx) w).filterRadioButtons[j]?
        = if j < k then
            (w.filterRadioButtons[j]?).map
              (fun b => { b with checked := false, autoExclusive := true })
          else w.filterRadioButtons[j]?)
    ∧ (∀ f ∈ ((List.range k).foldl (MainWindow.resetRadioButton rx) w).filters,
        f.enabled = false)
    ∧ ((List.range k).foldl (MainWindow.resetRadioButton rx) w).filters.length
        = w.filters.length := by
  induction k with
  | zero =>
    refine ⟨rfl, ?_, hdis, rfl⟩
    intro j
    simp
  | succ k ih =>
    obtain ⟨h1, h2, h3, h4⟩ := ih (Nat.le_of_succ_le hk)
    have hklt : k < w.filterRadioButtons.length := hk
    rw [List.range_succ, List.foldl_append]
    simp only [List.foldl_cons, List.foldl_nil]
    have hb : ((List.range k).foldl (MainWindow.resetRadioButton rx) w).filterRadioButtons[k]?
        = some w.filterRadioButtons[k] := by
      rw [h2 k]
      simp [List.getElem?_eq_getElem hklt]
    rw [MainWindow.resetRadioButton_some rx _ k _ hb]
    refine ⟨?_, ?_, ?_, ?_⟩
    · simp [h1]
    · intro j
      simp only [List.getElem?_set, h1, hklt, if_true]
      by_cases hj : k = j
      · subst hj
        simp [List.getElem?_eq_getElem hklt]
      · simp only [hj, if_false, h2 j]
        by_cases hjk : j < k
        · have : j < k + 1 := by omega
          simp [hjk, this]
        · have : ¬ j < k + 1 := by omega
          simp [hjk, this]
    · simp only
      split
      · exact MainWindow.setFilterEnabled_false_disabled rx _ _ h3
      · exact h3
    · simp only
      split
      · rw [length_setFilterEnabled, h4]
      · exact h4

/-- C3: in every state of the filter controls, `enableFilters(false)` leaves
every filter of the registry disabled and every radio button unchecked and
auto-exclusive, keeps the number of filters and buttons, and disables the
frame; `enableFilters(true)` after that changes neither a filter nor a button
and enables the frame, with no filter enabled. -/
theorem MainWindow.enableFilters_false_resets (rx : Bool) (w : MainWindow) :
    (∀ f ∈ (MainWindow.enableFilters rx false w).filters, f.enabled = false)
    ∧ (∀ b ∈ (MainWindow.enableFilters rx false w).filterRadioButtons,
        b.checked = false ∧ b.autoExclusive = true)
    ∧ (MainWindow.enableFilters rx false w).filters.length = w.filters.length
    ∧ (MainWindow.enableFilters rx false w).filterRadioButtons.length
        = w.filterRadioButtons.length
    ∧ (MainWindow.enableFilters rx false w).filtersFrameEnabled = false
    ∧ (MainWindow.enableFilters rx true (MainWindow.enableFilters rx false w)).filters
        = (MainWindow.enableFilters rx false w).filters
    ∧ (MainWindow.enableFilters rx true (MainWindow.enableFilters rx false w)).filterRadioButtons
        = (MainWindow.enableFilters rx false w).filterRadioButtons
    ∧ (MainWindow.enableFilters rx true (MainWindow.enableFilters rx false w)).filtersFrameEnabled
        = true
    ∧ MainWindow.enabledCount
        (MainWindow.enableFilters rx true (MainWindow.enableFilters rx false w)) = 0 := by
  have hdis : ∀ f ∈ ({ w with filters := MainWindow.disableFilters w.filters } : MainWindow).filters,
      f.enabled = false := by
    intro f hf
    simp only [MainWindow.disableFilters, List.mem_map] at hf
    obtain ⟨g, _, hg⟩ := hf
    rw [← hg]
  obtain ⟨h1, h2, h3, h4⟩ := MainWindow.reset_loop rx
    { w with filters := MainWindow.disableFilters w.filters } hdis w.filterRadioButtons.length
    (Nat.le_refl _)
  have e : MainWindow.enableFilters rx false w
      = { (List.range w.filterRadioButtons.length).foldl (MainWindow.resetRadioButton rx)
            { w with filters := MainWindow.disableFilters w.filters } with
          filtersFrameEnabled := false } := by
    simp [MainWindow.enableFilters]
  have hf : ∀ f ∈ (MainWindow.enableFilters rx false w).filters, f.enabled = false := by
    rw [e]
    exact h3
  refine ⟨hf, ?_, ?_, ?_, ?_, ?_, ?_, ?_, ?_⟩
  · intro b hb
    rw [e] at hb
    simp only at hb
    obtain ⟨j, hj⟩ := List.getElem?_of_mem hb
    rw [h2 j] at hj
    by_cases hlt : j < w.filterRadioButtons.length
    · simp only [hlt, if_true, List.getElem?_eq_getElem hlt, Option.map_some'] at hj
      have := Option.some.inj hj
      rw [← this]
      exact ⟨rfl, rfl⟩
    · simp only [hlt, if_false] at hj
      rw [List.getElem?_eq_none (Nat.le_of_not_lt hlt)] at hj
      simp at hj
  · rw [e]
    simp only [h4]
    simp [MainWindow.disableFilters]
  · rw [e]
    exact h1
  · rw [e]
  · simp [MainWindow.enableFilters]
  · simp [MainWindow.enableFilters]
  · simp [MainWindow.enableFilters]
  · have h0 : (MainWindow.enableFilters rx true (MainWindow.enableFilters rx false w)).filters
        = (MainWindow.enableFilters rx false w).filters := by
      simp [MainWindow.enableFilters]
    unfold MainWindow.enabledCount
    rw [h0, List.countP_eq_zero]
    intro f hmem
    simp [hf f hmem]

theorem isAutoExclusive_of_all (bs : List QRadioButton)
    (hall : ∀ (j : Nat) (b : QRadioButton), bs[j]? = some b → b.autoExclusive = true)
    (j : Nat) (hj : j < bs.length) : MainWindow.isAutoExclusive bs j = true := by
  unfold MainWindow.isAutoExclusive
  rw [List.getElem?_eq_getElem hj]
  exact hall j _ (List.getElem?_eq_getElem hj)

theorem queryButtonList_of_all (bs : List QRadioButton)
    (hall : ∀ (j : Nat) (b : QRadioButton), bs[j]? = some b → b.autoExclusive = true)
    (q : Nat) : MainWindow.queryButtonList bs q = List.range bs.length := by
  unfold MainWindow.queryButtonList
  rw [List.filter_eq_self]
  intro j hj
  rw [isAutoExclusive_of_all bs hall j (List.mem_range.mp hj)]
  simp

theorem queryCheckedButton_spec (bs : List QRadioButton)
    (hall : ∀ (j : Nat) (b : QRadioButton), bs[j]? = some b → b.autoExclusive = true)
    (q : Nat) (hq : q < bs.length) :
    (bs.length = 1 ∧ MainWindow.queryCheckedButton bs q = none)
    ∨ (bs.length ≠ 1
      ∧ ((∃ j, MainWindow.queryCheckedButton bs q = some j ∧ j ≠ q
            ∧ MainWindow.isChecked bs j = true)
        ∨ ((∀ i, MainWindow.isChecked bs i = true → i = q)
            ∧ MainWindow.queryCheckedButton bs q
                = if MainWindow.isChecked bs q then some q else none))) := by
  unfold MainWindow.queryCheckedButton
  simp only [queryButtonList_of_all bs hall q, isAutoExclusive_of_all bs hall q hq,
    List.length_range, Bool.not_true, Bool.false_or, beq_iff_eq]
  by_cases h1 : bs.length = 1
  · left
    exact ⟨h1, by simp [h1]⟩
  · right
    refine ⟨h1, ?_⟩
    simp only [h1, if_false]
    cases hf : (List.range bs.length).find? (fun j => MainWindow.isChecked bs j && j != q) with
    | some j =>
      left
      have hp := List.find?_some hf
      simp only [Bool.and_eq_true, bne_iff_ne, ne_eq] at hp
      exact ⟨j, rfl, hp.2, hp.1⟩
    | none =>
      right
      refine ⟨?_, rfl⟩
      intro i hi
      have hn := List.find?_eq_none.mp hf i (List.mem_range.mpr (isChecked_lt bs i hi))
      simp only [Bool.and_eq_true, bne_iff_ne, ne_eq, not_and, not_not] at hn
      exact hn hi

theorem MainWindow.emitToggled_some (rx : Bool) (q : Nat) (v : Bool) (w : MainWindow)
    (b : QRadioButton) (h : w.filterRadioButtons[q]? = some b) :
    MainWindow.emitToggled rx q v w
      = { w with filters := MainWindow.setFilterEnabled rx b.filter v w.filters } := by
  simp [MainWindow.emitToggled, h]

theorem MainWindow.radioUncheck_cases (rx : Bool) (q : Nat) (w : MainWindow) :
    MainWindow.radioUncheck rx q w = w
    ∨ (MainWindow.isChecked w.filterRadioButtons q = true
      ∧ MainWindow.radioUncheck rx q w
          = MainWindow.emitToggled rx q false
              { w with filterRadioButtons := MainWindow.setCheckedRaw q false w.filterRadioButtons }) := by
  unfold MainWindow.radioUncheck
  by_cases h1 : MainWindow.isChecked w.filterRadioButtons q = true
  · by_cases h2 : (MainWindow.queryCheckedButton w.filterRadioButtons q == some q
        && MainWindow.isAutoExclusive w.filterRadioButtons q) = true
    · left
      simp [h1, h2]
    · right
      refine ⟨h1, ?_⟩
      simp only [h1, Bool.not_true, Bool.false_eq_true, if_false, h2]
  · left
    simp [h1]

theorem MainWindow.uncheck_inv (rx : Bool) (q : Nat) (w : MainWindow) (hinv : w.FilterInv)
    (hq : MainWindow.isChecked w.filterRadioButtons q = true) :
    (MainWindow.emitToggled rx q false
      { w with filterRadioButtons := MainWindow.setCheckedRaw q false w.filterRadioButtons }).FilterInv := by
  obtain ⟨i1, i2, i3, i4⟩ := hinv
  have hlt : q < w.filterRadioButtons.length := isChecked_lt _ _ hq
  have hget : w.filterRadioButtons[q]? = some w.filterRadioButtons[q] :=
    List.getElem?_eq_getElem hlt
  have hb : (MainWindow.setCheckedRaw q false w.filterRadioButtons)[q]?
      = some { w.filterRadioButtons[q] with checked := false } := by
    rw [getElem?_setCheckedRaw]
    simp [hget]
  rw [MainWindow.emitToggled_some rx q false _ _ hb]
  simp only [(i1 q _ hget).2]
  refine ⟨?_, ?_, ?_, ?_⟩
  · intro j b hj
    simp only [getElem?_setCheckedRaw] at hj
    by_cases hjq : j = q
    · subst hjq
      simp only [if_true, hget, Option.map_some', Option.some.injEq] at hj
      rw [← hj]
      exact i1 j w.filterRadioButtons[j] hget
    · simp only [hjq, if_false] at hj
      exact i1 j b hj
  · simp only [length_setCheckedRaw, length_setFilterEnabled]
    exact i2
  · intro i j hi hj
    simp only [isChecked_setCheckedRaw] at hi hj
    split at hi
    · simp at hi
    · split at hj
      · simp at hj
      · exact i3 i j hi hj
  · intro k hk
    simp only [isEnabled_setFilterEnabled, Bool.false_and, Bool.false_eq_true, if_false] at hk
    simp only [isChecked_setCheckedRaw]
    split at hk
    · split at hk
      · simp at hk
      · rename_i hkq
        simp only [hkq, false_and, if_false]
        exact i4 k hk
    · rename_i hnlt
      rw [← i2] at hnlt
      exact absurd hlt hnlt

theorem MainWindow.radioUncheck_inv (rx : Bool) (q : Nat) (w : MainWindow)
    (hinv : w.FilterInv) : (MainWindow.radioUncheck rx q w).FilterInv := by
  rcases MainWindow.radioUncheck_cases rx q w with h | ⟨hq, h⟩
  · rw [h]
    exact hinv
  · rw [h]
    exact MainWindow.uncheck_inv rx q w hinv hq

theorem MainWindow.check_finish (rx : Bool) (q : Nat) (w : MainWindow)
    (h : MainWindow.OnlyChecked q w) : (MainWindow.emitToggled rx q true w).FilterInv := by
  obtain ⟨m1, m2, m3, m4, m5⟩ := h
  have hlt : q < w.filterRadioButtons.length := isChecked_lt _ _ m4
  have hget : w.filterRadioButtons[q]? = some w.filterRadioButtons[q] :=
    List.getElem?_eq_getElem hlt
  rw [MainWindow.emitToggled_some rx q true w _ hget]
  simp only [(m1 q _ hget).2]
  refine ⟨m1, ?_, ?_, ?_⟩
  · simp only [length_setFilterEnabled]
    exact m2
  · intro i j hi hj
    rw [m3 i hi, m3 j hj]
  · intro k hk
    simp only [isEnabled_setFilterEnabled, m5] at hk
    by_cases hkq : k = q
    · rw [hkq]
      exact m4
    · simp [hkq] at hk

theorem MainWindow.onlyChecked_of_unique (q : Nat) (w : MainWindow) (hinv : w.FilterInv)
    (hq : MainWindow.isChecked w.filterRadioButtons q = false)
    (hlt : q < w.filterRadioButtons.length)
    (hu : ∀ i, MainWindow.isChecked (MainWindow.setCheckedRaw q true w.filterRadioButtons) i = true →
      i = q) :
    MainWindow.OnlyChecked q
      { w with filterRadioButtons := MainWindow.setCheckedRaw q true w.filterRadioButtons } := by
  obtain ⟨i1, i2, i3, i4⟩ := hinv
  have hget : w.filterRadioButtons[q]? = some w.filterRadioButtons[q] :=
    List.getElem?_eq_getElem hlt
  refine ⟨?_, ?_, hu, ?_, ?_⟩
  · intro j b hj
    simp only [getElem?_setCheckedRaw] at hj
    by_cases hjq : j = q
    · subst hjq
      simp only [if_true, hget, Option.map_some', Option.some.injEq] at hj
      rw [← hj]
      exact i1 j w.filterRadioButtons[j] hget
    · simp only [hjq, if_false] at hj
      exact i1 j b hj
  · simp only [length_setCheckedRaw]
    exact i2
  · simp only [isChecked_setCheckedRaw]
    simp [hlt]
  · intro k
    simp only
    cases hk : isEnabled w.filters k
    · rfl
    · exfalso
      have hck := i4 k hk
      have hkq : k ≠ q := by
        intro h
        rw [h, hq] at hck
        simp at hck
      have := hu k (by simp only [isChecked_setCheckedRaw, hkq, false_and, if_false]; exact hck)
      exact hkq this

theorem MainWindow.check_notify (rx : Bool) (q : Nat) (w : MainWindow) (hinv : w.FilterInv)
    (hq : MainWindow.isChecked w.filterRadioButtons q = false)
    (hlt : q < w.filterRadioButtons.length) :
    MainWindow.OnlyChecked q
      (match MainWindow.queryCheckedButton
          (MainWindow.setCheckedRaw q true w.filterRadioButtons) q with
        | some b => MainWindow.radioUncheck rx b
            { w with filterRadioButtons := MainWindow.setCheckedRaw q true w.filterRadioButtons }
        | none =>
            { w with filterRadioButtons := MainWindow.setCheckedRaw q true w.filterRadioButtons }) := by
  have hinv0 := hinv
  obtain ⟨i1, i2, i3, i4⟩ := hinv
  have hget : w.filterRadioButtons[q]? = some w.filterRadioButtons[q] :=
    List.getElem?_eq_getElem hlt
  have hall1 : ∀ (j : Nat) (b : QRadioButton),
      (MainWindow.setCheckedRaw q true w.filterRadioButtons)[j]? = some b →
        b.autoExclusive = true ∧ b.filter = j := by
    intro j b hj
    simp only [getElem?_setCheckedRaw] at hj
    by_cases hjq : j = q
    · subst hjq
      simp only [if_true, hget, Option.map_some', Option.some.injEq] at hj
      rw [← hj]
      exact i1 j w.filterRadioButtons[j] hget
    · simp only [hjq, if_false] at hj
      exact i1 j b hj
  have hall : ∀ (j : Nat) (b : QRadioButton),
      (MainWindow.setCheckedRaw q true w.filterRadioButtons)[j]? = some b →
        b.autoExclusive = true := fun j b hj => (hall1 j b hj).1
  have hlt1 : q < (MainWindow.setCheckedRaw q true w.filterRadioButtons).length := by
    rw [length_setCheckedRaw]
    exact hlt
  have hq1 : MainWindow.isChecked (MainWindow.setCheckedRaw q true w.filterRadioButtons) q = true := by
    simp [isChecked_setCheckedRaw, hlt]
  rcases queryCheckedButton_spec _ hall q hlt1 with ⟨hn, hr⟩ | ⟨hn, ⟨j, hr, hjq, hj⟩ | ⟨hu, hr⟩⟩
  · rw [hr]
    apply MainWindow.onlyChecked_of_unique q w hinv0 hq hlt
    intro i hi
    have := isChecked_lt _ _ hi
    omega
  · rw [hr]
    simp only
    have hjlt : j < (MainWindow.setCheckedRaw q true w.filterRadioButtons).length :=
      isChecked_lt _ _ hj
    have hj0 : MainWindow.isChecked w.filterRadioButtons j = true := by
      simpa [isChecked_setCheckedRaw, hjq] using hj
    have hguard : ¬ MainWindow.queryCheckedButton
        (MainWindow.setCheckedRaw q true w.filterRadioButtons) j = some j := by
      rcases queryCheckedButton_spec _ hall j hjlt with
        ⟨hn1, _⟩ | ⟨_, ⟨j1, hr1, hj1, _⟩ | ⟨hu1, _⟩⟩
      · exact absurd hn1 hn
      · rw [hr1]
        simpa using hj1
      · exact absurd (hu1 q hq1).symm hjq
    have hun : MainWindow.radioUncheck rx j
          { w with filterRadioButtons := MainWindow.setCheckedRaw q true w.filterRadioButtons }
        = MainWindow.emitToggled rx j false
            { w with filterRadioButtons := (MainWindow.setCheckedRaw j false
                (MainWindow.setCheckedRaw q true w.filterRadioButtons)) } := by
      unfold MainWindow.radioUncheck
      simp [hj, hguard]
    rw [hun]
    have hjlt0 : j < w.filterRadioButtons.length := by
      rw [length_setCheckedRaw] at hjlt
      exact hjlt
    have hgetj : w.filterRadioButtons[j]? = some w.filterRadioButtons[j] :=
      List.getElem?_eq_getElem hjlt0
    have hb : (MainWindow.setCheckedRaw j false
          (MainWindow.setCheckedRaw q true w.filterRadioButtons))[j]?
        = some { w.filterRadioButtons[j] with checked := false } := by
      simp [getElem?_setCheckedRaw, hjq, hgetj]
    rw [MainWindow.emitToggled_some rx j false _ _ hb]
    simp only [(i1 j _ hgetj).2]
    refine ⟨?_, ?_, ?_, ?_, ?_⟩
    · intro k b hk
      simp only [getElem?_setCheckedRaw (q := j)] at hk
      by_cases hkj : k = j
      · subst hkj
        simp only [if_true, getElem?_setCheckedRaw, hjq, if_false, hgetj, Option.map_some',
          Option.some.injEq] at hk
        rw [← hk]
        exact i1 k w.filterRadioButtons[k] hgetj
      · simp only [hkj, if_false] at hk
        exact hall1 k b hk
    · simp only [length_setCheckedRaw, length_setFilterEnabled]
      exact i2
    · intro i hi
      simp only [isChecked_setCheckedRaw, length_setCheckedRaw] at hi
      by_cases hij : i = j
      · simp [hij, hjlt0] at hi
      · simp only [hij, false_and, if_false] at hi
        by_cases hiq : i = q
        · exact hiq
        · simp only [hiq, false_and, if_false] at hi
          exact absurd (i3 i j hi hj0) hij
    · simp only [isChecked_setCheckedRaw, length_setCheckedRaw]
      have : ¬ q = j := fun h => hjq h.symm
      simp [this, hlt]
    · intro k
      simp only [isEnabled_setFilterEnabled, Bool.false_and, Bool.false_eq_true, if_false]
      have hjf : j < w.filters.length := by
        rw [← i2]
        exact hjlt0
      simp only [hjf, if_true]
      by_cases hkj : k = j
      · simp [hkj]
      · simp only [hkj, if_false]
        cases hk : isEnabled w.filters k
        · rfl
        · exact absurd (i3 k j (i4 k hk) hj0) hkj
  · rw [hr, hq1]
    simp only [if_true]
    have hun : MainWindow.radioUncheck rx q
          { w with filterRadioButtons := MainWindow.setCheckedRaw q true w.filterRadioButtons }
        = { w with filterRadioButtons := MainWindow.setCheckedRaw q true w.filterRadioButtons } := by
      unfold MainWindow.radioUncheck
      simp [hq1, hr, isAutoExclusive_of_all _ hall q hlt1]
    rw [hun]
    exact MainWindow.onlyChecked_of_unique q w hinv0 hq hlt hu

theorem MainWindow.radioCheck_inv (rx : Bool) (q : Nat) (w : MainWindow) (hinv : w.FilterInv) :
    (MainWindow.radioCheck rx q w).FilterInv := by
  unfold MainWindow.radioCheck
  cases hq : MainWindow.isChecked w.filterRadioButtons q
  · simp only [Bool.false_eq_true, if_false]
    by_cases hlt : q < w.filterRadioButtons.length
    · have hall : ∀ (j : Nat) (b : QRadioButton),
          (MainWindow.setCheckedRaw q true w.filterRadioButtons)[j]? = some b →
            b.autoExclusive = true := by
        intro j b hj
        simp only [getElem?_setCheckedRaw] at hj
        by_cases hjq : j = q
        · subst hjq
          simp only [if_true, List.getElem?_eq_getElem hlt, Option.map_some',
            Option.some.injEq] at hj
          rw [← hj]
          exact (hinv.1 j w.filterRadioButtons[j] (List.getElem?_eq_getElem hlt)).1
        · simp only [hjq, if_false] at hj
          exact (hinv.1 j b hj).1
      have hae : MainWindow.isAutoExclusive
          (MainWindow.setCheckedRaw q true w.filterRadioButtons) q = true :=
        isAutoExclusive_of_all _ hall q (by rw [length_setCheckedRaw]; exact hlt)
      simp only [hae, if_true]
      exact MainWindow.check_finish rx q _ (MainWindow.check_notify rx q w hinv hq hlt)
    · have hnone : w.filterRadioButtons[q]? = none :=
        List.getElem?_eq_none (Nat.le_of_not_lt hlt)
      have e1 : MainWindow.setCheckedRaw q true w.filterRadioButtons = w.filterRadioButtons := by
        simp [MainWindow.setCheckedRaw, hnone]
      simp only [e1, MainWindow.isAutoExclusive, hnone, Bool.false_eq_true, if_false,
        MainWindow.emitToggled]
      exact hinv
  · simp only [if_true]
    exact hinv

theorem MainWindow.enableFilters_inv (rx : Bool) (enabled : Bool) (w : MainWindow)
    (hinv : w.FilterInv) : (MainWindow.enableFilters rx enabled w).FilterInv := by
  cases enabled
  · obtain ⟨i1, i2, _, _⟩ := hinv
    have hdis : ∀ f ∈ ({ w with filters := MainWindow.disableFilters w.filters } : MainWindow).filters,
        f.enabled = false := by
      intro f hf
      simp only [MainWindow.disableFilters, List.mem_map] at hf
      obtain ⟨g, _, hg⟩ := hf
      rw [← hg]
    obtain ⟨h1, h2, h3, h4⟩ := MainWindow.reset_loop rx
      { w with filters := MainWindow.disableFilters w.filters } hdis w.filterRadioButtons.length
      (Nat.le_refl _)
    have e : MainWindow.enableFilters rx false w
        = { (List.range w.filterRadioButtons.length).foldl (MainWindow.resetRadioButton rx)
              { w with filters := MainWindow.disableFilters w.filters } with
            filtersFrameEnabled := false } := by
      simp [MainWindow.enableFilters]
    rw [e]
    have hb : ∀ (j : Nat) (b : QRadioButton),
        ((List.range w.filterRadioButtons.length).foldl (MainWindow.resetRadioButton rx)
          { w with filters := MainWindow.disableFilters w.filters }).filterRadioButtons[j]? = some b →
        b.checked = false ∧ b.autoExclusive = true ∧ b.filter = j := by
      intro j b hj
      rw [h2 j] at hj
      by_cases hlt : j < w.filterRadioButtons.length
      · simp only [hlt, if_true, List.getElem?_eq_getElem hlt, Option.map_some',
          Option.some.injEq] at hj
        rw [← hj]
        exact ⟨rfl, rfl, (i1 j _ (List.getElem?_eq_getElem hlt)).2⟩
      · simp only [hlt, if_false] at hj
        rw [List.getElem?_eq_none (Nat.le_of_not_lt hlt)] at hj
        simp at hj
    refine ⟨?_, ?_, ?_, ?_⟩
    · intro j b hj
      exact ⟨(hb j b hj).2.1, (hb j b hj).2.2⟩
    · simp only [h1, h4]
      simp only [MainWindow.disableFilters, List.length_map]
      exact i2
    · intro i j hi
      exfalso
      unfold MainWindow.isChecked at hi
      simp only at hi
      cases hg : ((List.range w.filterRadioButtons.length).foldl (MainWindow.resetRadioButton rx)
          { w with filters := MainWindow.disableFilters w.filters }).filterRadioButtons[i]? with
      | none => rw [hg] at hi; simp at hi
      | some b =>
        rw [hg] at hi
        simp only at hi
        rw [(hb i b hg).1] at hi
        simp at hi
    · intro k hk
      exfalso
      unfold isEnabled at hk
      simp only at hk
      cases hg : ((List.range w.filterRadioButtons.length).foldl (MainWindow.resetRadioButton rx)
          { w with filters := MainWindow.disableFilters w.filters }).filters[k]? with
      | none => rw [hg] at hk; simp at hk
      | some f =>
        rw [hg] at hk
        simp only at hk
        rw [h3 f (List.getElem?_mem hg)] at hk
        simp at hk
  · have e : MainWindow.enableFilters rx true w = { w with filtersFrameEnabled := true } := by
      simp [MainWindow.enableFilters]
    rw [e]
    exact hinv

theorem MainWindow.filterStep_inv (rx : Bool) (w : MainWindow) (e : FilterEvent)
    (hinv : w.FilterInv) : (MainWindow.filterStep rx w e).FilterInv := by
  cases e with
  | toggle q checked =>
    cases checked
    · exact MainWindow.radioUncheck_inv rx q w hinv
    · exact MainWindow.radioCheck_inv rx q w hinv
  | enableFilters enabled => exact MainWindow.enableFilters_inv rx enabled w hinv

theorem MainWindow.filterSteps_inv (rx : Bool) (es : List FilterEvent) (w : MainWindow)
    (hinv : w.FilterInv) : (es.foldl (MainWindow.filterStep rx) w).FilterInv := by
  induction es generalizing w with
  | nil => exact hinv
  | cons e es ih => exact ih _ (MainWindow.filterStep_inv rx w e hinv)

theorem MainWindow.registerFilter_inv (filter : AbstractFilter) (w : MainWindow)
    (hinv : w.FilterInv) (hf : filter.enabled = false) :
    (MainWindow.registerFilter filter w).FilterInv := by
  obtain ⟨i1, i2, i3, i4⟩ := hinv
  have hchk : ∀ i, MainWindow.isChecked
      (w.filterRadioButtons ++ [⟨filter.name, false, true, w.filters.length⟩]) i
      = MainWindow.isChecked w.filterRadioButtons i := by
    intro i
    unfold MainWindow.isChecked
    by_cases hlt : i < w.filterRadioButtons.length
    · rw [List.getElem?_append_left hlt]
    · rw [List.getElem?_append_right (Nat.le_of_not_lt hlt),
        List.getElem?_eq_none (Nat.le_of_not_lt hlt)]
      cases hx : ([(⟨filter.name, false, true, w.filters.length⟩ : QRadioButton)])[i
          - w.filterRadioButtons.length]? with
      | none => rfl
      | some b =>
        have hm := List.getElem?_mem hx
        simp only [List.mem_singleton] at hm
        rw [hm]
  have hen : ∀ k, isEnabled (w.filters ++ [filter]) k = isEnabled w.filters k := by
    intro k
    unfold isEnabled
    by_cases hlt : k < w.filters.length
    · rw [List.getElem?_append_left hlt]
    · rw [List.getElem?_append_right (Nat.le_of_not_lt hlt),
        List.getElem?_eq_none (Nat.le_of_not_lt hlt)]
      cases hx : ([filter])[k - w.filters.length]? with
      | none => rfl
      | some b =>
        have hm := List.getElem?_mem hx
        simp only [List.mem_singleton] at hm
        rw [hm]
        exact hf
  refine ⟨?_, ?_, ?_, ?_⟩
  · intro j b hj
    simp only [MainWindow.registerFilter] at hj
    by_cases hlt : j < w.filterRadioButtons.length
    · rw [List.getElem?_append_left hlt] at hj
      exact i1 j b hj
    · have hle := Nat.le_of_not_lt hlt
      rw [List.getElem?_append_right hle] at hj
      have hm := List.getElem?_mem hj
      simp only [List.mem_singleton] at hm
      have hj0 : j - w.filterRadioButtons.length = 0 := by
        by_contra hne
        have hlt2 := (List.getElem?_eq_some_iff.mp hj).1
        simp only [List.length_singleton] at hlt2
        omega
      rw [hm]
      refine ⟨rfl, ?_⟩
      simp only
      omega
  · simp only [MainWindow.registerFilter, List.length_append, List.length_singleton, i2]
  · intro i j hi hj
    simp only [MainWindow.registerFilter, hchk] at hi hj
    exact i3 i j hi hj
  · intro k hk
    simp only [MainWindow.registerFilter, hchk, hen] at hk ⊢
    exact i4 k hk

theorem MainWindow.filterInv_of_empty (w : MainWindow) (hf : w.filters = [])
    (hb : w.filterRadioButtons = []) : w.FilterInv := by
  refine ⟨?_, ?_, ?_, ?_⟩
  · intro j b hj
    rw [hb] at hj
    simp at hj
  · rw [hf, hb]
    rfl
  · intro i j hi
    rw [hb] at hi
    simp [MainWindow.isChecked] at hi
  · intro k hk
    rw [hf] at hk
    simp [isEnabled] at hk

theorem countP_enabled_le_one (fs : List AbstractFilter)
    (h : ∀ i j, isEnabled fs i = true → isEnabled fs j = true → i = j) :
    fs.countP (fun f => f.enabled) ≤ 1 := by
  induction fs with
  | nil => simp
  | cons f fs ih =>
    have hshift : ∀ k, isEnabled (f :: fs) (k + 1) = isEnabled fs k := by
      intro k
      simp [isEnabled]
    have h0 : isEnabled (f :: fs) 0 = f.enabled := by simp [isEnabled]
    have ih1 := ih (by
      intro i j hi hj
      have := h (i + 1) (j + 1) (by rw [hshift]; exact hi) (by rw [hshift]; exact hj)
      omega)
    rw [List.countP_cons]
    cases hf : f.enabled
    · simpa using ih1
    · have hz : fs.countP (fun f => f.enabled) = 0 := by
        rw [List.countP_eq_zero]
        intro g hg hge
        obtain ⟨k, hk⟩ := List.getElem?_of_mem hg
        have := h 0 (k + 1) (by rw [h0]; exact hf) (by
          rw [hshift]
          simp only [isEnabled, hk]
          exact hge)
        omega
      rw [hz]
      simp

theorem MainWindow.enabledCount_le_one (w : MainWindow) (hinv : w.FilterInv) :
    MainWindow.enabledCount w ≤ 1 := by
  obtain ⟨_, _, i3, i4⟩ := hinv
  exact countP_enabled_le_one w.filters (fun i j hi hj => i3 i j (i4 i hi) (i4 j hj))

/-- C2: starting from the state after `registerFilters`, with the two filters
disabled as constructed, after every prefix of every sequence of radio button
toggles and `enableFilters` calls at most one filter of the registry is
enabled.  This holds whether `setEnabled` clears the other filters itself or
only stores the flag: the exclusion comes from the auto-exclusive radio
buttons. -/
theorem MainWindow.filters_mutually_exclusive (rx : Bool) (w0 : MainWindow)
    (faceDetect grayscale : AbstractFilter) (es : List FilterEvent) (n : Nat)
    (hf : w0.filters = []) (hb : w0.filterRadioButtons = [])
    (h1 : faceDetect.enabled = false) (h2 : grayscale.enabled = false) :
    MainWindow.enabledCount
      ((es.take n).foldl (MainWindow.filterStep rx)
        (MainWindow.registerFilters faceDetect grayscale w0)) ≤ 1 := by
  apply MainWindow.enabledCount_le_one
  apply MainWindow.filterSteps_inv
  unfold MainWindow.registerFilters
  exact MainWindow.registerFilter_inv grayscale _
    (MainWindow.registerFilter_inv faceDetect w0 (MainWindow.filterInv_of_empty w0 hf hb) h1) h2

/-- Witness of C2: the filters are switched on, the first button is checked,
then the second; after these three of the five steps one filter is enabled. -/
theorem MainWindow.filters_mutually_exclusive_witness :
    MainWindow.enabledCount
      ((filterTrace.take 3).foldl (MainWindow.filterStep false)
        (MainWindow.registerFilters ⟨"Face detect", false⟩ ⟨"Grayscale", false⟩
          (MainWindow.setup 0 "/tmp"))) ≤ 1 :=
  MainWindow.filters_mutually_exclusive false (MainWindow.setup 0 "/tmp")
    ⟨"Face detect", false⟩ ⟨"Grayscale", false⟩ filterTrace 3 rfl rfl rfl rfl

end CamGrab
